import Mathlib

/-!
Verification of the Letify HTTP client (`src/utils/http.py`) and the scraper
property-hash functions (`src/scrapers/vbt.py`, `src/scrapers/hureninhollandrijnland.py`)
against their natural-language specification.

The Python code is shallowly embedded: pure helpers become Lean functions,
the stateful `get` retry loop becomes a recursive function threading explicit
state and an oracle for the `random` / `time` library calls, and code that can
raise becomes `Except`-valued.  Bytes are `Fin 256`; machine integers are `Nat`
or `Int`.
-/

namespace Letify

/-! ### Python string primitives -/

/-- Python `str.lower()` (ASCII-faithful model). -/
def strLower (s : String) : String := (s.data.map Char.toLower).asString

/-- Python `str.strip()`: drop whitespace from both ends. -/
def pyStrip (s : String) : String :=
  (((s.data.dropWhile Char.isWhitespace).reverse.dropWhile Char.isWhitespace).reverse).asString

/-- Split on a separator, on character lists.  `fuel` bounds the recursion and
is at least the list length at every call, so the fuel-exhausted arm is never
taken. -/
def splitChars (sep : List Char) : Nat → List Char → List (List Char)
  | _, [] => [[]]
  | 0, l => [l]
  | fuel + 1, c :: rest =>
    if sep ≠ [] ∧ sep.isPrefixOf (c :: rest) then
      [] :: splitChars sep fuel ((c :: rest).drop sep.length)
    else
      match splitChars sep fuel rest with
      | [] => [[c]]
      | g :: gs => (c :: g) :: gs

/-- Python `s.split(sep)` for a nonempty separator. -/
def pySplit (s sep : String) : List String :=
  (splitChars sep.data s.data.length s.data).map List.asString

/-- Is `needle` a contiguous sub-list of `hay`?  Models Python `needle in hay`
for strings, on the underlying character lists. -/
def subListAt : List Char → List Char → Bool
  | needle, [] => needle.isEmpty
  | needle, c :: rest => needle.isPrefixOf (c :: rest) || subListAt needle (rest)

/-- Python `needle in hay` for strings. -/
def strContains (hay needle : String) : Bool := subListAt needle.data hay.data

/-- Fold a digit list into a natural number. -/
def digitsVal (ds : List Char) : Nat :=
  ds.foldl (fun acc c => acc * 10 + (c.toNat - '0'.toNat)) 0

/-- Python `int(s)` for base-10 string literals: strips surrounding whitespace,
allows one optional sign, then requires a nonempty digit run.  Returns `none`
where Python raises `ValueError`.  (Digit-group underscores are not modelled.) -/
def pyInt (s : String) : Option Int :=
  let t := pyStrip s
  let core : Option (Int × List Char) :=
    match t.data with
    | '-' :: rest => some (-1, rest)
    | '+' :: rest => some (1, rest)
    | l => some (1, l)
  match core with
  | some (sign, ds) =>
      if ds ≠ [] ∧ ds.all (fun c => c.isDigit) then some (sign * (digitsVal ds : Int))
      else none
  | none => none

/-- Python `sep.join(xs)`. -/
def pyJoin (sep : String) : List String → String
  | [] => ""
  | [x] => x
  | x :: y :: xs => x ++ sep ++ pyJoin sep (y :: xs)

/-- Python `dict.update`: dictionaries as association lists; keys already in
`base` get the updated value in place, new keys are appended in order. -/
def dictUpdate (base upd : List (String × String)) : List (String × String) :=
  (base.map fun p =>
    match upd.find? (fun q => q.1 == p.1) with
    | some q => (p.1, q.2)
    | none => p)
  ++ upd.filter (fun q => base.all (fun p => p.1 != q.1))

/-- Little-endian base-10 digits; `fuel` is at least `n` at every call, so the
fuel-exhausted arm is never taken. -/
def natDigitsAux : Nat → Nat → List Nat
  | _, 0 => []
  | 0, n => [n]
  | fuel + 1, n => n % 10 :: natDigitsAux fuel (n / 10)

/-- Little-endian base-10 digits of `n` (empty for 0). -/
def natDigits (n : Nat) : List Nat := natDigitsAux n n

/-- Python `str(n)` for a natural number: base-10 digits, no leading zeros. -/
def natToStr (n : Nat) : String :=
  if n = 0 then "0" else ((natDigits n).reverse.map Nat.digitChar).asString

/-! ### Bytes and text codecs

`bytes.decode(encoding)` from the Python standard library, restricted to the
encodings the repository exercises.  An unknown encoding name raises
`LookupError`; undecodable input raises `UnicodeDecodeError`. -/

/-- A byte. -/
abbrev Byte := Fin 256

inductive PyCodec
  | utf8
  | latin1
  | cp1252
  deriving DecidableEq

/-- Python `encodings.normalize_encoding`, approximated: lowercase and turn
hyphens and spaces into underscores. -/
def normalizeCodecName (s : String) : String :=
  ((strLower s).data.map (fun c => if c = '-' ∨ c = ' ' then '_' else c)).asString

/-- Model of the Python codec registry, restricted to the codecs reachable from
`_decode_content` (`iso-8859-1` and `latin1` are aliases of the same codec).
Any other name raises `LookupError` in Python, modelled as `none`. -/
def lookupCodec (name : String) : Option PyCodec :=
  let n := normalizeCodecName name
  if n ∈ ["utf_8", "utf8", "utf", "u8", "cp65001"] then some .utf8
  else if n ∈ ["latin_1", "latin1", "latin", "l1", "iso_8859_1", "iso8859_1",
               "iso8859", "8859", "cp819", "819"] then some .latin1
  else if n ∈ ["cp1252", "windows_1252", "1252"] then some .cp1252
  else none

/-- Latin-1 decodes every byte to the character with the same code point;
it is total. -/
def latin1Decode (bs : List Byte) : List Char :=
  bs.map (fun b => Char.ofNat b.val)

/-- cp1252 code point for a byte: bytes `0x80`–`0x9F` go through the Windows-1252
table, with `0x81, 0x8D, 0x8F, 0x90, 0x9D` undefined. -/
def cp1252Point (b : Nat) : Option Nat :=
  if b < 0x80 ∨ 0xA0 ≤ b then some b
  else
    match b with
    | 0x80 => some 0x20AC
    | 0x82 => some 0x201A
    | 0x83 => some 0x0192
    | 0x84 => some 0x201E
    | 0x85 => some 0x2026
    | 0x86 => some 0x2020
    | 0x87 => some 0x2021
    | 0x88 => some 0x02C6
    | 0x89 => some 0x2030
    | 0x8A => some 0x0160
    | 0x8B => some 0x2039
    | 0x8C => some 0x0152
    | 0x8E => some 0x017D
    | 0x91 => some 0x2018
    | 0x92 => some 0x2019
    | 0x93 => some 0x201C
    | 0x94 => some 0x201D
    | 0x95 => some 0x2022
    | 0x96 => some 0x2013
    | 0x97 => some 0x2014
    | 0x98 => some 0x02DC
    | 0x99 => some 0x2122
    | 0x9A => some 0x0161
    | 0x9B => some 0x203A
    | 0x9C => some 0x0153
    | 0x9E => some 0x017E
    | 0x9F => some 0x0178
    | _ => none

def cp1252Decode : List Byte → Option (List Char)
  | [] => some []
  | b :: rest =>
    match cp1252Point b.val with
    | some p => (cp1252Decode rest).map (fun cs => Char.ofNat p :: cs)
    | none => none

/-- Strict UTF-8 decoder (rejects overlong forms, surrogates and code points
above `U+10FFFF`, as Python's `utf-8` codec does). -/
def utf8Decode : List Byte → Option (List Char)
  | [] => some []
  | b :: rest =>
    let n := b.val
    if n < 0x80 then
      (utf8Decode rest).map (fun cs => Char.ofNat n :: cs)
    else if n < 0xC2 then none
    else if n < 0xE0 then
      match rest with
      | c :: rest2 =>
        if 0x80 ≤ c.val ∧ c.val < 0xC0 then
          (utf8Decode rest2).map
            (fun cs => Char.ofNat ((n - 0xC0) * 0x40 + (c.val - 0x80)) :: cs)
        else none
      | [] => none
    else if n < 0xF0 then
      match rest with
      | c :: d :: rest3 =>
        let lo := if n = 0xE0 then 0xA0 else 0x80
        let hi := if n = 0xED then 0xA0 else 0xC0
        if lo ≤ c.val ∧ c.val < hi ∧ 0x80 ≤ d.val ∧ d.val < 0xC0 then
          (utf8Decode rest3).map
            (fun cs =>
              Char.ofNat ((n - 0xE0) * 0x1000 + (c.val - 0x80) * 0x40 + (d.val - 0x80)) :: cs)
        else none
      | _ => none
    else if n < 0xF5 then
      match rest with
      | c :: d :: e :: rest4 =>
        let lo := if n = 0xF0 then 0x90 else 0x80
        let hi := if n = 0xF4 then 0x90 else 0xC0
        if lo ≤ c.val ∧ c.val < hi ∧ 0x80 ≤ d.val ∧ d.val < 0xC0 ∧
            0x80 ≤ e.val ∧ e.val < 0xC0 then
          (utf8Decode rest4).map
            (fun cs =>
              Char.ofNat ((n - 0xF0) * 0x40000 + (c.val - 0x80) * 0x1000 +
                (d.val - 0x80) * 0x40 + (e.val - 0x80)) :: cs)
        else none
      | _ => none
    else none

/-- Run a codec on a byte string; `none` is `UnicodeDecodeError`. -/
def codecDecode : PyCodec → List Byte → Option String
  | .utf8, bs => (utf8Decode bs).map List.asString
  | .latin1, bs => some (latin1Decode bs).asString
  | .cp1252, bs => (cp1252Decode bs).map List.asString

/-- The two exceptions `bytes.decode` can raise. -/
inductive PyDecErr
  | lookupError
  | unicodeDecodeError
  deriving DecidableEq

/-- Python `content.decode(name)`. -/
def decodeBytes (name : String) (bs : List Byte) : Except PyDecErr String :=
  match lookupCodec name with
  | none => .error .lookupError
  | some c =>
    match codecDecode c bs with
    | some s => .ok s
    | none => .error .unicodeDecodeError

/-- The `for encoding in encodings` loop of `_decode_content`: each
`UnicodeDecodeError` falls through to the next encoding (`continue`); after the
loop, `content.decode('latin1')` runs outside any `try`. -/
def decodeLadder : List String → List Byte → Except PyDecErr String
  | [], content => decodeBytes "latin1" content
  | e :: rest, content =>
    match decodeBytes e content with
    | .ok s => .ok s
    | .error .lookupError => .error .lookupError
    | .error .unicodeDecodeError => decodeLadder rest content

/-- The encodings list of `_decode_content`. -/
def commonEncodings : List String := ["utf-8", "latin1", "cp1252", "iso-8859-1"]

/-- Embedding of `EnhancedHttpClient._decode_content` (src/utils/http.py:230-257).
The `try` around `content.decode(charset)` catches only `UnicodeDecodeError`;
any other exception (in particular `LookupError` from an unknown charset)
propagates, modelled as `.error`. -/
def _decode_content (content : List Byte) (charset : Option String) :
    Except PyDecErr String :=
  match charset with
  | some cs =>
    if cs ≠ "" then
      match decodeBytes cs content with
      | .ok s => .ok s
      | .error .lookupError => .error .lookupError
      | .error .unicodeDecodeError => decodeLadder commonEncodings content
    else decodeLadder commonEncodings content
  | none => decodeLadder commonEncodings content

/-- The `for part in parts` loop of `_extract_charset`: return on the first
part containing `charset=`, taking `part.split('=')[-1].strip().lower()`. -/
def findCharsetPart : List String → Option String
  | [] => none
  | p :: rest =>
    if strContains (strLower p) "charset=" then
      some (strLower (pyStrip ((pySplit p "=").getLastD "")))
    else findCharsetPart rest

/-- Embedding of `EnhancedHttpClient._extract_charset` (src/utils/http.py:259-270): the
`content-type` header arrives as a string (default `""`), and `if not
content_type` is a truthiness test. -/
def _extract_charset (contentType : String) : Option String :=
  if contentType = "" then none
  else if strContains (strLower contentType) "charset=" then
    findCharsetPart (pySplit contentType ";")
  else none

/-! ### Compression handling -/

/-- The `gzip` / `brotli` / `zlib` libraries imported by
`_import_compression_libs` (src/utils/http.py:57-82), modelled as parameters:
each decompressor returns `none` where the library call raises. -/
structure CompressionLibs where
  gzipAvailable : Bool
  brotliAvailable : Bool
  zlibAvailable : Bool
  gzipDecompress : List Byte → Option (List Byte)
  brotliDecompress : List Byte → Option (List Byte)
  zlibDecompress : List Byte → Option (List Byte)
  zlibDecompressRaw : List Byte → Option (List Byte)

/-- Embedding of `EnhancedHttpClient._try_decompress_content` (src/utils/http.py:186-228):
the `content-encoding` header arrives as a string (default `""`); each
decompression attempt that fails falls through to the next; on total failure
the original content is returned. -/
def _try_decompress_content (libs : CompressionLibs) (content : List Byte)
    (encoding : String) : List Byte :=
  if encoding = "" then content
  else
    let enc := strLower encoding
    let g := if strContains enc "gzip" && libs.gzipAvailable then
        libs.gzipDecompress content else none
    match g with
    | some r => r
    | none =>
      let b := if strContains enc "br" && libs.brotliAvailable then
          libs.brotliDecompress content else none
      match b with
      | some r => r
      | none =>
        let z := if strContains enc "deflate" && libs.zlibAvailable then
            match libs.zlibDecompress content with
            | some r => some r
            | none => libs.zlibDecompressRaw content
          else none
        match z with
        | some r => r
        | none => content

/-! ### The `get` retry loop -/

/-- The observable parts of an `httpx.Response` used by `get`:
`text` is the body as decoded by httpx. -/
structure Response where
  status : Nat
  historyLen : Nat
  retryAfter : Option String
  contentEncoding : String
  contentType : String
  content : List Byte
  text : String
  deriving DecidableEq

/-- What the transport (`client.get`) produces on one attempt:
a response, or a raised `httpx.RequestError` / `httpx.TimeoutException`. -/
inductive AttemptOutcome
  | ok (r : Response)
  | requestError
  deriving DecidableEq

/-- Exceptions that can escape `get`. -/
inductive HttpErr
  | tooManyRedirects
  | rateLimited (status : Nat)
  | httpError (status : Nat)
  | transport
  | valueError
  | decodeError (e : PyDecErr)
  | indexError
  deriving DecidableEq

/-- Which of those are `httpx.RequestError`s (the only exceptions
`get_with_fallback` catches). -/
def isRequestError : HttpErr → Bool
  | .tooManyRedirects => true
  | .rateLimited _ => true
  | .httpError _ => true
  | .transport => true
  | .valueError => false
  | .decodeError _ => false
  | .indexError => false

/-- The client state read by `get` / `get_with_fallback`. -/
structure ClientState where
  useProxies : Bool
  proxyList : List String
  deriving DecidableEq

/-- Oracle for the `random.*` and `time.time()` calls, indexed by the attempt
number where a call happens once per loop iteration. -/
structure Oracle where
  basePick : Nat → Nat
  refererPick : Nat → Nat
  chromeSessionDepth : Nat
  chromeResW : Nat
  chromeResH : Nat
  safariNow : Nat
  freshSessionDepth : Nat → Nat
  freshResW : Nat → Nat
  freshResH : Nat → Nat
  freshNow : Nat → Nat
  freshVisitDelta : Nat → Nat
  proxyPickA : Nat → Nat
  proxyPickB : Nat → Nat

/-- Headers and cookie jars are Python dicts of strings. -/
abbrev Headers := List (String × String)

/-- A double-quote character, for header values that contain quotes. -/
def dq : String := (Char.ofNat 34).toString

/-- Wrap a string in double quotes. -/
def qd (s : String) : String := dq ++ s ++ dq

/-- One entry of the `random.choice` list in `_get_browser_headers`
(src/utils/http.py:87-138). -/
structure BaseProfile where
  name : String
  userAgent : String
  platform : String
  secChUa : Option String
  secChUaMobile : Option String
  secChUaPlatform : Option String

def chromeSecChUa : String :=
  qd "Chromium" ++ ";v=" ++ qd "112" ++ ", " ++ qd "Google Chrome" ++ ";v=" ++
    qd "112" ++ ", " ++ qd "Not:A-Brand" ++ ";v=" ++ qd "99"

def edgeSecChUa : String :=
  qd "Chromium" ++ ";v=" ++ qd "112" ++ ", " ++ qd "Microsoft Edge" ++ ";v=" ++
    qd "112" ++ ", " ++ qd "Not:A-Brand" ++ ";v=" ++ qd "99"

def baseProfiles : List BaseProfile :=
  [{ name := "Chrome Windows"
     userAgent := "Mozilla/5.0 (Windows NT 10.0; Win64; x64) AppleWebKit/537.36 (KHTML, like Gecko) Chrome/112.0.0.0 Safari/537.36"
     platform := "Windows"
     secChUa := some chromeSecChUa
     secChUaMobile := some "?0"
     secChUaPlatform := some (qd "Windows") },
   { name := "Chrome macOS"
     userAgent := "Mozilla/5.0 (Macintosh; Intel Mac OS X 10_15_7) AppleWebKit/537.36 (KHTML, like Gecko) Chrome/112.0.0.0 Safari/537.36"
     platform := "macOS"
     secChUa := some chromeSecChUa
     secChUaMobile := some "?0"
     secChUaPlatform := some (qd "macOS") },
   { name := "Chrome Linux"
     userAgent := "Mozilla/5.0 (X11; Linux x86_64) AppleWebKit/537.36 (KHTML, like Gecko) Chrome/112.0.0.0 Safari/537.36"
     platform := "Linux"
     secChUa := some chromeSecChUa
     secChUaMobile := some "?0"
     secChUaPlatform := some (qd "Linux") },
   { name := "Firefox Windows"
     userAgent := "Mozilla/5.0 (Windows NT 10.0; Win64; x64; rv:109.0) Gecko/20100101 Firefox/109.0"
     platform := "Windows"
     secChUa := none
     secChUaMobile := none
     secChUaPlatform := none },
   { name := "Safari macOS"
     userAgent := "Mozilla/5.0 (Macintosh; Intel Mac OS X 10_15_7) AppleWebKit/605.1.15 (KHTML, like Gecko) Version/16.4 Safari/605.1.15"
     platform := "macOS"
     secChUa := none
     secChUaMobile := none
     secChUaPlatform := none },
   { name := "Edge Windows"
     userAgent := "Mozilla/5.0 (Windows NT 10.0; Win64; x64) AppleWebKit/537.36 (KHTML, like Gecko) Chrome/112.0.0.0 Safari/537.36 Edg/112.0.1722.48"
     platform := "Windows"
     secChUa := some edgeSecChUa
     secChUaMobile := some "?0"
     secChUaPlatform := some (qd "Windows") }]

def referers : List String :=
  ["https://www.google.com/", "https://www.google.nl/", "https://www.bing.com/",
   "https://duckduckgo.com/", "https://www.startpage.com/"]

/-- Embedding of `EnhancedHttpClient._get_browser_headers` (src/utils/http.py:84-178);
`call` indexes the oracle for the two `random.choice` calls. -/
def _get_browser_headers (o : Oracle) (call : Nat) : Headers :=
  let p := baseProfiles.getD (o.basePick call % baseProfiles.length)
    { name := "", userAgent := "", platform := "",
      secChUa := none, secChUaMobile := none, secChUaPlatform := none }
  let hs : Headers :=
    [("User-Agent", p.userAgent),
     ("Accept", "text/html,application/xhtml+xml,application/xml;q=0.9,image/avif,image/webp,image/apng,*/*;q=0.8,application/signed-exchange;v=b3;q=0.7"),
     ("Accept-Language", "en-US,en;q=0.9,nl;q=0.8"),
     ("Accept-Encoding", "gzip, deflate, br"),
     ("Connection", "keep-alive"),
     ("Upgrade-Insecure-Requests", "1"),
     ("Cache-Control", "max-age=0"),
     ("DNT", "1")]
  let hs := if strContains p.name "Chrome" || strContains p.name "Edge" then
      dictUpdate hs
        [("Sec-Fetch-Dest", "document"), ("Sec-Fetch-Mode", "navigate"),
         ("Sec-Fetch-Site", "none"), ("Sec-Fetch-User", "?1"), ("Priority", "u=0, i")]
    else hs
  let hs := match p.secChUa with
    | some u =>
      if u ≠ "" then
        dictUpdate hs
          [("sec-ch-ua", u), ("sec-ch-ua-mobile", p.secChUaMobile.getD ""),
           ("sec-ch-ua-platform", p.secChUaPlatform.getD "")]
      else hs
    | none => hs
  dictUpdate hs [("Referer", referers.getD (o.refererPick call % referers.length) "")]

/-- Embedding of `EnhancedHttpClient._get_random_proxy` (src/utils/http.py:180-184). -/
def _get_random_proxy (st : ClientState) (pick : Nat) : Option String :=
  if !st.useProxies || st.proxyList.isEmpty then none
  else some (st.proxyList.getD (pick % st.proxyList.length) "")

/-- A custom anti-bot-evasion profile of the `browser_profiles` catalog built
at the top of `get` (src/utils/http.py:291-410). -/
structure CustomProfile where
  name : String
  headers : Headers
  cookies : Headers
  deriving DecidableEq

/-- An entry of the catalog: the marker entry 0 (`"custom": False`) or a
custom profile. -/
inductive CatalogEntry
  | default
  | custom (p : CustomProfile)
  deriving DecidableEq

/-- The referer expression `url.split('/')[0] + '//' + url.split('/')[2] + '/'` (src/utils/http.py:305);
`none` models the `IndexError` when the url has fewer than three `/`-parts. -/
def urlOriginReferer (url : String) : Option String :=
  let parts := pySplit url "/"
  match parts.get? 0, parts.get? 2 with
  | some a, some b => some (a ++ "//" ++ b ++ "/")
  | _, _ => none

def resolutionWidths : List Nat := [1920, 1440, 1366, 1280]
def resolutionHeights : List Nat := [1080, 900, 768, 720]

/-- The `browser_profiles` catalog of `get` (src/utils/http.py:291-410),
built once per call.  Fails (`none`) when the Desktop Chrome referer
expression raises `IndexError`. -/
def mkCatalog (url : String) (o : Oracle) : Option (List CatalogEntry) :=
  (urlOriginReferer url).map fun ref =>
    [.default,
     .custom
       { name := "Desktop Chrome"
         headers :=
           [("User-Agent", "Mozilla/5.0 (Windows NT 10.0; Win64; x64) AppleWebKit/537.36 (KHTML, like Gecko) Chrome/114.0.0.0 Safari/537.36"),
            ("Accept", "text/html,application/xhtml+xml,application/xml;q=0.9,image/avif,image/webp,image/apng,*/*;q=0.8"),
            ("Accept-Language", "en-US,en;q=0.9,nl;q=0.8"),
            ("Accept-Encoding", "gzip, deflate, br"),
            ("Connection", "keep-alive"),
            ("Referer", ref),
            ("Sec-Fetch-Dest", "document"),
            ("Sec-Fetch-Mode", "navigate"),
            ("Sec-Fetch-Site", "same-origin"),
            ("Sec-Fetch-User", "?1"),
            ("Upgrade-Insecure-Requests", "1"),
            ("Cache-Control", "max-age=0")]
         cookies :=
           [("session_depth", natToStr (1 + o.chromeSessionDepth % 5)),
            ("has_js", "1"),
            ("resolution", natToStr (resolutionWidths.getD (o.chromeResW % 4) 0) ++
              "x" ++ natToStr (resolutionHeights.getD (o.chromeResH % 4) 0)),
            ("accept_cookies", "true")] },
     .custom
       { name := "Mobile Safari"
         headers :=
           [("User-Agent", "Mozilla/5.0 (iPhone; CPU iPhone OS 16_5 like Mac OS X) AppleWebKit/605.1.15 (KHTML, like Gecko) Version/16.5 Mobile/15E148 Safari/604.1"),
            ("Accept", "text/html,application/xhtml+xml,application/xml;q=0.9,*/*;q=0.8"),
            ("Accept-Language", "nl-NL,nl;q=0.9"),
            ("Accept-Encoding", "gzip, deflate, br"),
            ("Connection", "keep-alive"),
            ("Referer", "https://www.google.com/"),
            ("Cache-Control", "no-cache"),
            ("Pragma", "no-cache")]
         cookies :=
           [("session_depth", "3"), ("has_js", "1"), ("resolution", "375x812"),
            ("accept_cookies", "true"), ("cookieConsent", "true"),
            ("device", "mobile")] },
     .custom
       { name := "Desktop Safari"
         headers :=
           [("User-Agent", "Mozilla/5.0 (Macintosh; Intel Mac OS X 10_15_7) AppleWebKit/605.1.15 (KHTML, like Gecko) Version/16.5 Safari/605.1.15"),
            ("Accept", "text/html,application/xhtml+xml,application/xml;q=0.9,*/*;q=0.8"),
            ("Accept-Language", "nl-NL,nl;q=0.8,en-US;q=0.5,en;q=0.3"),
            ("Accept-Encoding", "gzip, deflate, br"),
            ("Connection", "keep-alive"),
            ("DNT", "1"),
            ("Upgrade-Insecure-Requests", "1")]
         cookies :=
           [("session_depth", "5"), ("has_js", "1"), ("resolution", "1440x900"),
            ("accept_cookies", "true"), ("visited_before", "true"),
            ("lastVisit", natToStr o.safariNow), ("consent_level", "ALL")] },
     .custom
       { name := "Firefox Linux"
         headers :=
           [("User-Agent", "Mozilla/5.0 (X11; Ubuntu; Linux x86_64; rv:109.0) Gecko/20100101 Firefox/113.0"),
            ("Accept", "text/html,application/xhtml+xml,application/xml;q=0.9,image/avif,image/webp,*/*;q=0.8"),
            ("Accept-Language", "en-US,en;q=0.5"),
            ("Accept-Encoding", "gzip, deflate, br"),
            ("Connection", "keep-alive"),
            ("DNT", "1"),
            ("Upgrade-Insecure-Requests", "1")]
         cookies :=
           [("session_depth", "2"), ("has_js", "1"), ("resolution", "1920x1080"),
            ("accept_cookies", "true")] },
     .custom
       { name := "Edge Windows"
         headers :=
           [("User-Agent", "Mozilla/5.0 (Windows NT 10.0; Win64; x64) AppleWebKit/537.36 (KHTML, like Gecko) Chrome/113.0.0.0 Safari/537.36 Edg/113.0.1774.57"),
            ("Accept", "text/html,application/xhtml+xml,application/xml;q=0.9,image/webp,image/apng,*/*;q=0.8,application/signed-exchange;v=b3;q=0.7"),
            ("Accept-Language", "en-US,en;q=0.9"),
            ("Accept-Encoding", "gzip, deflate, br"),
            ("Connection", "keep-alive"),
            ("Referer", "https://www.bing.com/"),
            ("Sec-Fetch-Dest", "document"),
            ("Sec-Fetch-Mode", "navigate"),
            ("Sec-Fetch-Site", "cross-site"),
            ("Sec-Fetch-User", "?1"),
            ("Upgrade-Insecure-Requests", "1"),
            ("sec-ch-ua", qd "Microsoft Edge" ++ ";v=" ++ qd "113" ++ ", " ++
              qd "Chromium" ++ ";v=" ++ qd "113" ++ ", " ++ qd "Not-A.Brand" ++
              ";v=" ++ qd "24"),
            ("sec-ch-ua-mobile", "?0"),
            ("sec-ch-ua-platform", qd "Windows")]
         cookies :=
           [("session_depth", "4"), ("has_js", "1"), ("resolution", "1366x768"),
            ("accept_cookies", "true"), ("visited_before", "true")] }]

/-- Python `str(i)` for an integer. -/
def intToStr (i : Int) : String :=
  if i < 0 then "-" ++ natToStr i.natAbs else natToStr i.natAbs

/-- The extra randomized cookies of the non-custom retry branch
(src/utils/http.py:433-441). -/
def freshRetryCookies (o : Oracle) (n : Nat) : Headers :=
  [("session_depth", natToStr (5 + o.freshSessionDepth n % 6)),
   ("has_js", "1"),
   ("resolution", natToStr (resolutionWidths.getD (o.freshResW n % 4) 0) ++ "x" ++
     natToStr (resolutionHeights.getD (o.freshResH n % 4) 0)),
   ("accept_cookies", "true"),
   ("visited_before", "true"),
   ("lastVisit", intToStr ((o.freshNow n : Int) - (3600 + (o.freshVisitDelta n : Int) % 82801)))]

/-- The anti-bot signature patterns (src/utils/http.py:515-524). -/
def antiBotPatterns : List String :=
  ["Je bent bijna op de pagina die je zoekt",
   "We houden ons platform graag veilig en spamvrij",
   "robot", "captcha", "CloudFare", "DDoS protection",
   "Ik ben geen robot", "Just a moment"]

/-- The pattern scan (src/utils/http.py:527-532):
`pattern.lower() in response.text.lower()`. -/
def antiBotDetected (text : String) : Bool :=
  antiBotPatterns.any (fun p => strContains (strLower text) (strLower p))

/-- The manual decompression/decoding block for empty-looking 200 bodies
(src/utils/http.py:496-510); an exception from `_decode_content` propagates. -/
def applyTextOverride (libs : CompressionLibs) (r : Response) :
    Except PyDecErr Response :=
  if r.status = 200 ∧ (r.text = "" ∨ r.text.length < 100 ∨ r.content.contains (0 : Fin 256)) then
    match _decode_content (_try_decompress_content libs r.content r.contentEncoding)
        (_extract_charset r.contentType) with
    | .ok t => .ok { r with text := t }
    | .error e => .error e
  else .ok r

/-- The caller-supplied `**kwargs` keys `get` inspects (`headers`, `cookies`);
`none` means absent (or already popped). -/
structure Kwargs where
  headers : Option Headers
  cookies : Option Headers
  deriving DecidableEq

/-- Observable events of a `get` call: each transport request with the headers,
cookies and proxy it was sent with, and the `Retry-After` sleep. -/
inductive TraceEntry
  | request (attempt : Nat) (headers cookies : Headers) (proxy : Option String)
  | sleep (secs : Int)
  deriving DecidableEq

/-- Outcome of one iteration of the `while` loop of `get`: either the function
returns or raises (`done`), or an anti-bot retry fires (`retry`, carrying the
trace entry of this attempt, the kwargs state after pops, and the response that
was flagged). -/
inductive StepOutcome
  | done (tr : List TraceEntry) (res : Except HttpErr Response)
  | retry (entry : TraceEntry) (kw2 : Kwargs) (r2 : Response)

/-- Per-attempt fingerprint selection and cookie pop
(src/utils/http.py:414-441). -/
def selectProfile (o : Oracle) (cat : List CatalogEntry) (n : Nat) (kw : Kwargs) :
    Headers × Headers × Kwargs :=
  if n = 0 then
    (_get_browser_headers o n, kw.cookies.getD [], { kw with cookies := none })
  else
    match cat.getD (min n (cat.length - 1)) .default with
    | .custom p => (p.headers, p.cookies, kw)
    | .default =>
      (_get_browser_headers o n,
       dictUpdate (kw.cookies.getD []) (freshRetryCookies o n),
       { kw with cookies := none })

/-- Pop and apply caller header overrides (src/utils/http.py:443-446). -/
def applyHeaderOverrides (hdrs0 : Headers) (kw1 : Kwargs) : Headers × Kwargs :=
  match kw1.headers with
  | some h => (dictUpdate hdrs0 h, { kw1 with headers := none })
  | none => (hdrs0, kw1)

/-- Proxy selection (src/utils/http.py:448-453): a second draw on retries. -/
def pickProxy (st : ClientState) (o : Oracle) (n : Nat) : Option String :=
  let proxy0 := if st.useProxies then _get_random_proxy st (o.proxyPickA n) else none
  if proxy0.isSome && decide (0 < n) then _get_random_proxy st (o.proxyPickB n)
  else proxy0

/-- One transport attempt with the chosen fingerprint
(src/utils/http.py:468-547). -/
def attemptWith (libs : CompressionLibs) (env : Nat → AttemptOutcome)
    (retryAntiBot : Bool) (maxR n : Nat) (entry : TraceEntry) (kw2 : Kwargs) :
    StepOutcome :=
  match env n with
  | .requestError => .done [entry] (.error .transport)
  | .ok r =>
    if 10 < r.historyLen then .done [entry] (.error .tooManyRedirects)
    else if r.status = 429 then
      match pyInt ((r.retryAfter).getD "5") with
      | none => .done [entry] (.error .valueError)
      | some t => .done [entry, .sleep t] (.error (.rateLimited r.status))
    else if 400 ≤ r.status then
      if r.status = 404 then .done [entry] (.ok r)
      else .done [entry] (.error (.httpError r.status))
    else
      match applyTextOverride libs r with
      | .error e => .done [entry] (.error (.decodeError e))
      | .ok r2 =>
        if retryAntiBot ∧ n < maxR ∧ antiBotDetected r2.text then .retry entry kw2 r2
        else .done [entry] (.ok r2)

/-- One iteration of the `while antibot_retry_count <= max_antibot_retries`
loop body of `get` (src/utils/http.py:413-550).  `n` is `antibot_retry_count`.
Random sleeps are timing only and are not modelled; the `Retry-After` sleep is
recorded in the trace. -/
def getStep (st : ClientState) (libs : CompressionLibs) (o : Oracle)
    (cat : List CatalogEntry) (env : Nat → AttemptOutcome) (retryAntiBot : Bool)
    (maxR : Nat) (n : Nat) (kw : Kwargs) : StepOutcome :=
  match selectProfile o cat n kw with
  | (hdrs0, cooks, kw1) =>
    match applyHeaderOverrides hdrs0 kw1 with
    | (hdrs, kw2) =>
      attemptWith libs env retryAntiBot maxR n
        (TraceEntry.request n hdrs cooks (pickProxy st o n)) kw2

/-- The `while antibot_retry_count <= max_antibot_retries` loop of `get`
(src/utils/http.py:413-553).  The loop is entered with `n = 0 ≤ maxR` and
re-entered only via `continue` with `n + 1 ≤ maxR`, so the loop condition
needs no separate check.  `gas` is the structural recursion measure: `get`
calls the loop with `gas = maxR - n` and the invariant is preserved, so when
a retry fires (`n < maxR`) `gas` is positive and the `gas = 0` arm (which
returns like the no-retry branch) is never taken. -/
def getLoop (st : ClientState) (libs : CompressionLibs) (o : Oracle)
    (cat : List CatalogEntry) (env : Nat → AttemptOutcome) (retryAntiBot : Bool)
    (maxR : Nat) : Nat → Nat → Kwargs → List TraceEntry × Except HttpErr Response
  | gas, n, kw =>
    match getStep st libs o cat env retryAntiBot maxR n kw with
    | .done tr res => (tr, res)
    | .retry entry kw2 r2 =>
      match gas with
      | 0 => ([entry], .ok r2)
      | gas' + 1 =>
        match getLoop st libs o cat env retryAntiBot maxR gas' (n + 1) kw2 with
        | (tr, res) => (entry :: tr, res)

/-- Embedding of `EnhancedHttpClient.get` (src/utils/http.py:272-553), returning the trace
of sent requests and the result. -/
def get (st : ClientState) (libs : CompressionLibs) (o : Oracle)
    (env : Nat → AttemptOutcome) (url : String) (retryAntiBot : Bool)
    (maxR : Nat) (kwargs : Kwargs) : List TraceEntry × Except HttpErr Response :=
  match mkCatalog url o with
  | none => ([], .error .indexError)
  | some cat => getLoop st libs o cat env retryAntiBot maxR maxR 0 kwargs

/-- Number of transport requests in a trace. -/
def requestCount (tr : List TraceEntry) : Nat :=
  tr.countP (fun e => match e with | .request _ _ _ _ => true | _ => false)

/-- The headers and cookies sent on attempt `k`, if attempt `k` occurs. -/
def requestFingerprintAt (tr : List TraceEntry) (k : Nat) : Option (Headers × Headers) :=
  match tr with
  | [] => none
  | .request a h c _ :: rest =>
      if a = k then some (h, c) else requestFingerprintAt rest k
  | _ :: rest => requestFingerprintAt rest k

/-- Embedding of `EnhancedHttpClient.get_with_fallback` (src/utils/http.py:555-583).
The two inner `get` calls see different transport states (`env1`, `env2`) and
random draws (`o1`, `o2`).  Returns the result together with the final client
state; `finally: self.use_proxies = True` runs whether the direct retry
returns or raises. -/
def get_with_fallback (st : ClientState) (libs : CompressionLibs)
    (o1 o2 : Oracle) (env1 env2 : Nat → AttemptOutcome) (url : String)
    (retryAntiBot : Bool) (maxR : Nat) (kwargs : Kwargs) :
    (List TraceEntry × Except HttpErr Response) × ClientState :=
  if !st.useProxies then (get st libs o1 env1 url retryAntiBot maxR kwargs, st)
  else
    match get st libs o1 env1 url retryAntiBot maxR kwargs with
    | (tr, .ok r) => ((tr, .ok r), st)
    | (tr, .error e) =>
      if isRequestError e then
        let st2 : ClientState := { st with useProxies := false }
        (get st2 libs o2 env2 url retryAntiBot maxR kwargs,
         { st2 with useProxies := true })
      else ((tr, .error e), st)

/-! ### MD5 (`hashlib.md5(...).hexdigest()`) -/

def mask32 : Nat := 4294967295

def add32 (a b : Nat) : Nat := (a + b) % 4294967296

def not32 (a : Nat) : Nat := Nat.xor a mask32

def rotl32 (x c : Nat) : Nat := ((x <<< c) ||| (x >>> (32 - c))) % 4294967296

def md5K : List Nat :=
  [0xd76aa478, 0xe8c7b756, 0x242070db, 0xc1bdceee,
   0xf57c0faf, 0x4787c62a, 0xa8304613, 0xfd469501,
   0x698098d8, 0x8b44f7af, 0xffff5bb1, 0x895cd7be,
   0x6b901122, 0xfd987193, 0xa679438e, 0x49b40821,
   0xf61e2562, 0xc040b340, 0x265e5a51, 0xe9b6c7aa,
   0xd62f105d, 0x02441453, 0xd8a1e681, 0xe7d3fbc8,
   0x21e1cde6, 0xc33707d6, 0xf4d50d87, 0x455a14ed,
   0xa9e3e905, 0xfcefa3f8, 0x676f02d9, 0x8d2a4c8a,
   0xfffa3942, 0x8771f681, 0x6d9d6122, 0xfde5380c,
   0xa4beea44, 0x4bdecfa9, 0xf6bb4b60, 0xbebfbc70,
   0x289b7ec6, 0xeaa127fa, 0xd4ef3085, 0x04881d05,
   0xd9d4d039, 0xe6db99e5, 0x1fa27cf8, 0xc4ac5665,
   0xf4292244, 0x432aff97, 0xab9423a7, 0xfc93a039,
   0x655b59c3, 0x8f0ccc92, 0xffeff47d, 0x85845dd1,
   0x6fa87e4f, 0xfe2ce6e0, 0xa3014314, 0x4e0811a1,
   0xf7537e82, 0xbd3af235, 0x2ad7d2bb, 0xeb86d391]

def md5S : List Nat :=
  [7, 12, 17, 22, 7, 12, 17, 22, 7, 12, 17, 22, 7, 12, 17, 22,
   5, 9, 14, 20, 5, 9, 14, 20, 5, 9, 14, 20, 5, 9, 14, 20,
   4, 11, 16, 23, 4, 11, 16, 23, 4, 11, 16, 23, 4, 11, 16, 23,
   6, 10, 15, 21, 6, 10, 15, 21, 6, 10, 15, 21, 6, 10, 15, 21]

/-- The `count` little-endian bytes of `n`. -/
def leBytes (n count : Nat) : List Nat :=
  (List.range count).map (fun i => (n >>> (8 * i)) % 256)

/-- Little-endian word value of a byte list. -/
def leWord (l : List Nat) : Nat :=
  l.foldr (fun b acc => acc * 256 + b) 0

/-- MD5 padding: `0x80`, zeros to 56 mod 64, then the 64-bit bit length. -/
def md5Pad (msg : List Nat) : List Nat :=
  let len := msg.length
  let zeros := (56 - (len + 1) % 64 + 64) % 64
  msg ++ [0x80] ++ List.replicate zeros 0 ++ leBytes ((len * 8) % 2 ^ 64) 8

def md5Round (m : Nat → Nat) (st : Nat × Nat × Nat × Nat) (i : Nat) :
    Nat × Nat × Nat × Nat :=
  let a := st.1
  let b := st.2.1
  let c := st.2.2.1
  let d := st.2.2.2
  let fg :=
    if i < 16 then ((b &&& c) ||| (not32 b &&& d), i)
    else if i < 32 then ((d &&& b) ||| (not32 d &&& c), (5 * i + 1) % 16)
    else if i < 48 then (Nat.xor b (Nat.xor c d), (3 * i + 5) % 16)
    else (Nat.xor c (b ||| not32 d), (7 * i) % 16)
  let f := add32 (add32 (add32 fg.1 a) (md5K.getD i 0)) (m fg.2)
  (d, add32 b (rotl32 f (md5S.getD i 0)), b, c)

def md5ProcessChunk (st : Nat × Nat × Nat × Nat) (chunk : List Nat) :
    Nat × Nat × Nat × Nat :=
  let m := fun j => leWord ((chunk.drop (4 * j)).take 4)
  let r := (List.range 64).foldl (md5Round m) st
  (add32 st.1 r.1, add32 st.2.1 r.2.1, add32 st.2.2.1 r.2.2.1, add32 st.2.2.2 r.2.2.2)

def chunks64 (l : List Nat) : List (List Nat) :=
  if h : l = [] then [] else l.take 64 :: chunks64 (l.drop 64)
termination_by l.length
decreasing_by
  have hl : 0 < l.length := List.length_pos.mpr h
  simp only [List.length_drop]
  omega

def hexChar (n : Nat) : Char :=
  if n < 10 then Char.ofNat (48 + n) else Char.ofNat (97 + n - 10)

def byteHex (b : Nat) : String :=
  (hexChar (b / 16)).toString ++ (hexChar (b % 16)).toString

/-- Model of `hashlib.md5(s.encode()).hexdigest()`. -/
def md5hex (s : String) : String :=
  let msg := s.toUTF8.toList.map UInt8.toNat
  let st := (chunks64 (md5Pad msg)).foldl md5ProcessChunk
    (0x67452301, 0xefcdab89, 0x98badcfe, 0x10325476)
  String.join ((leBytes st.1 4 ++ leBytes st.2.1 4 ++ leBytes st.2.2.1 4 ++
    leBytes st.2.2.2 4).map byteHex)

/-! ### The property hash (`_generate_property_hash`) -/

/-- Modelled from the spec: `models/property.py` is not under `src/`.  The
fields read by `_generate_property_hash`, plus one representative
non-identifying field (`description`); the numeric fields are modelled as
naturals.  Python truthiness makes `""`, `0` and `None` all skipped. -/
structure PropertyListing where
  url : Option String
  source_id : Option String
  title : Option String
  address : Option String
  postal_code : Option String
  city : Option String
  living_area : Option Nat
  price_numeric : Option Nat
  description : Option String
  deriving DecidableEq

/-- The append step `if listing.f: identifiers.append(listing.f)` for a string field. -/
def strField : Option String → List String
  | some s => if s = "" then [] else [s]
  | none => []

/-- The append step for a numeric field, tagged as in the f-string of the
source (`area:` or `price:` followed by the number). -/
def numField (tag : String) : Option Nat → List String
  | some a => if a = 0 then [] else [tag ++ natToStr a]
  | none => []

/-- The `identifiers` list built by the sequence of appends in
`_generate_property_hash` (src/scrapers/vbt.py:46-66, identical in
src/scrapers/hureninhollandrijnland.py), before the uuid fallback;
the appends happen in this fixed order, so the list is this concatenation. -/
def identCore (l : PropertyListing) : List String :=
  strField l.url ++ strField l.source_id ++ strField l.title ++
    strField l.address ++ strField l.postal_code ++ strField l.city ++
    numField "area:" l.living_area ++ numField "price:" l.price_numeric

/-- The `identifiers` list after the `if not identifiers: identifiers.append(str(uuid.uuid4()))`
fallback (src/scrapers/vbt.py:68-70); `uuid4` is the oracle for that call. -/
def identifiers (l : PropertyListing) (uuid4 : String) : List String :=
  let ids := identCore l
  if ids = [] then [uuid4] else ids

/-- The join `hash_input = "|".join([str(x) for x in identifiers if x])`
(src/scrapers/vbt.py:73). -/
def hashInput (l : PropertyListing) (uuid4 : String) : String :=
  pyJoin "|" ((identifiers l uuid4).filter (fun x => x ≠ ""))

/-- Embedding of `VBTVerhuurmakelaarsScraper._generate_property_hash`
(src/scrapers/vbt.py:42-77). -/
def _generate_property_hash (l : PropertyListing) (uuid4 : String) : String :=
  md5hex (hashInput l uuid4)

/-- Embedding of `HurenInHollandRijnland._generate_property_hash`
(src/scrapers/hureninhollandrijnland.py:42-77): the method body is
character-for-character the same as the VBT one. -/
def hurenInHollandRijnland_generate_property_hash
    (l : PropertyListing) (uuid4 : String) : String :=
  md5hex (hashInput l uuid4)

/-! ### Predicates used to state the claims -/

/-- Python truthiness of an optional string field. -/
def strTruthy : Option String → Bool
  | some s => decide (s ≠ "")
  | none => false

/-- Python truthiness of an optional numeric field. -/
def natTruthy : Option Nat → Bool
  | some n => decide (n ≠ 0)
  | none => false

/-- At least one identifying field of the listing is present (truthy). -/
def hasIdentifier (l : PropertyListing) : Bool :=
  strTruthy l.url || strTruthy l.source_id || strTruthy l.title ||
    strTruthy l.address || strTruthy l.postal_code || strTruthy l.city ||
    natTruthy l.living_area || natTruthy l.price_numeric

/-- All eight identifying fields are present (truthy). -/
def allIdentPresent (l : PropertyListing) : Bool :=
  strTruthy l.url && strTruthy l.source_id && strTruthy l.title &&
    strTruthy l.address && strTruthy l.postal_code && strTruthy l.city &&
    natTruthy l.living_area && natTruthy l.price_numeric

/-- The string field contains no `'|'` separator character. -/
def pipeFreeOpt : Option String → Bool
  | some s => decide ('|' ∉ s.data)
  | none => true

/-- None of the six identifying string fields contains `'|'`. -/
def pipeFreeFields (l : PropertyListing) : Bool :=
  pipeFreeOpt l.url && pipeFreeOpt l.source_id && pipeFreeOpt l.title &&
    pipeFreeOpt l.address && pipeFreeOpt l.postal_code && pipeFreeOpt l.city

/-- Equality of the eight identifying fields of two listings. -/
def sameIdentFields (l1 l2 : PropertyListing) : Prop :=
  l1.url = l2.url ∧ l1.source_id = l2.source_id ∧ l1.title = l2.title ∧
    l1.address = l2.address ∧ l1.postal_code = l2.postal_code ∧
    l1.city = l2.city ∧ l1.living_area = l2.living_area ∧
    l1.price_numeric = l2.price_numeric

/-- Character-level counterpart of `pyJoin "|"`, for reasoning about the
pipe-joined hash input. -/
def joinPipe : List (List Char) → List Char
  | [] => []
  | [x] => x
  | x :: y :: r => x ++ '|' :: joinPipe (y :: r)

/-- Value of a decimal digit character. -/
def charDigitVal (c : Char) : Nat := c.toNat - 48

/-- Numeric value of a decimal digit string (big-endian). -/
def strDigitsVal (l : List Char) : Nat :=
  Nat.ofDigits 10 (l.reverse.map charDigitVal)

/-! ### Concrete sample values (used by witnesses and counterexamples) -/

/-- A deterministic oracle. -/
def sampleOracle : Oracle where
  basePick := fun _ => 0
  refererPick := fun _ => 0
  chromeSessionDepth := 0
  chromeResW := 0
  chromeResH := 0
  safariNow := 1700000000
  freshSessionDepth := fun _ => 0
  freshResW := fun _ => 0
  freshResH := fun _ => 0
  freshNow := fun _ => 1700000000
  freshVisitDelta := fun _ => 0
  proxyPickA := fun _ => 0
  proxyPickB := fun _ => 0

/-- Compression libraries all unavailable. -/
def sampleLibs : CompressionLibs where
  gzipAvailable := false
  brotliAvailable := false
  zlibAvailable := false
  gzipDecompress := fun _ => none
  brotliDecompress := fun _ => none
  zlibDecompress := fun _ => none
  zlibDecompressRaw := fun _ => none

/-- A client with proxies disabled. -/
def sampleState : ClientState := { useProxies := false, proxyList := [] }

/-- A client with proxies enabled. -/
def proxyState : ClientState := { useProxies := true, proxyList := ["http://proxy:8080"] }

def sampleUrl : String := "https://example.com/a"

/-- A 404 response. -/
def resp404 : Response :=
  { status := 404, historyLen := 0, retryAfter := none, contentEncoding := "",
    contentType := "", content := [], text := "" }

/-- A server that always answers 404. -/
def env404 : Nat → AttemptOutcome := fun _ => .ok resp404

/-- A 200 response whose body is the anti-bot marker `robot`. -/
def respBot : Response :=
  { status := 200, historyLen := 0, retryAfter := none, contentEncoding := "",
    contentType := "", content := [114, 111, 98, 111, 116], text := "robot" }

/-- A server that always answers with an anti-bot page. -/
def envBot : Nat → AttemptOutcome := fun _ => .ok respBot

/-- A 429 response carrying `Retry-After: 7`. -/
def resp429 : Response :=
  { status := 429, historyLen := 0, retryAfter := some "7", contentEncoding := "",
    contentType := "", content := [], text := "" }

/-- A server that always answers 429. -/
def env429 : Nat → AttemptOutcome := fun _ => .ok resp429

/-- A 500 response. -/
def resp500 : Response :=
  { status := 500, historyLen := 0, retryAfter := none, contentEncoding := "",
    contentType := "", content := [], text := "" }

/-- A server that always answers 500. -/
def env500 : Nat → AttemptOutcome := fun _ => .ok resp500

/-- The catalog `get` builds for the sample url and oracle. -/
def sampleCat : List CatalogEntry := (mkCatalog sampleUrl sampleOracle).getD []

/-- Headers and cookies of sample catalog entry `i`. -/
def sampleCatFingerprint (i : Nat) : Option (Headers × Headers) :=
  match sampleCat.getD i .default with
  | .custom p => some (p.headers, p.cookies)
  | .default => none

/-- Headers of sample catalog entry 1 (Desktop Chrome). -/
def sampleFp1 : Headers := ((sampleCatFingerprint 1).getD ([], [])).1

/-- Cookies of sample catalog entry 1 (Desktop Chrome). -/
def sampleFp2 : Headers := ((sampleCatFingerprint 1).getD ([], [])).2

/-! ## Theorems -/

/-! ### Decoding (claim C6) -/

theorem decodeBytes_latin1_total (content : List Byte) :
    decodeBytes "latin1" content = .ok (latin1Decode content).asString := rfl

theorem decodeLadder_common_ok (content : List Byte) :
    ∃ s, decodeLadder commonEncodings content = .ok s := by
  have hl : decodeBytes "latin1" content = .ok (latin1Decode content).asString := rfl
  have h8 : lookupCodec "utf-8" = some .utf8 := by decide
  cases hu : codecDecode PyCodec.utf8 content with
  | some s =>
      refine ⟨s, ?_⟩
      have hd : decodeBytes "utf-8" content = .ok s := by
        simp [decodeBytes, h8, hu]
      simp [commonEncodings, decodeLadder, hd]
  | none =>
      refine ⟨(latin1Decode content).asString, ?_⟩
      have hd : decodeBytes "utf-8" content = .error .unicodeDecodeError := by
        simp [decodeBytes, h8, hu]
      simp [commonEncodings, decodeLadder, hd, hl]

/-- Claim C6 (amended): `_decode_content` returns a string for every byte
sequence whenever the supplied charset is absent, empty, or the name of a
recognized codec: the supplied charset is tried first, then the ladder
`utf-8, latin1, cp1252, iso-8859-1`, whose `latin1` step decodes arbitrary
bytes, so the ladder never falls through.  (As stated for *every* charset
value the claim is false: an unrecognized charset name raises `LookupError`,
see the counterexample.) -/
theorem decode_content_total_for_known_charsets (content : List Byte)
    (charset : Option String)
    (h : charset = none ∨ ∃ cs, charset = some cs ∧ (cs = "" ∨ (lookupCodec cs).isSome)) :
    ∃ s, _decode_content content charset = .ok s := by
  rcases h with h | ⟨cs, rfl, hcs⟩
  · subst h
    simpa [_decode_content] using decodeLadder_common_ok content
  · rcases hcs with rfl | hsome
    · simpa [_decode_content] using decodeLadder_common_ok content
    · by_cases hne : cs = ""
      · subst hne
        simpa [_decode_content] using decodeLadder_common_ok content
      · rcases hc : lookupCodec cs with _ | c
        · rw [hc] at hsome; simp at hsome
        · cases hd : codecDecode c content with
          | some s =>
              refine ⟨s, ?_⟩
              simp [_decode_content, hne, decodeBytes, hc, hd]
          | none =>
              obtain ⟨s, hs⟩ := decodeLadder_common_ok content
              refine ⟨s, ?_⟩
              simp [_decode_content, hne, decodeBytes, hc, hd, hs]

/-- Claim C6 witness: a concrete charset accepted by the hypothesis, with the
theorem applied to it. -/
theorem decode_content_total_for_known_charsets_witness :
    ((some "utf-8" : Option String) = none ∨
      ∃ cs, (some "utf-8" : Option String) = some cs ∧
        (cs = "" ∨ (lookupCodec cs).isSome)) ∧
    ∃ s, _decode_content [255] (some "utf-8") = .ok s :=
  ⟨Or.inr ⟨"utf-8", rfl, Or.inr (by decide)⟩,
   decode_content_total_for_known_charsets [255] (some "utf-8")
     (Or.inr ⟨"utf-8", rfl, Or.inr (by decide)⟩)⟩

/-- Claim C6 counterexample: with an unrecognized charset name, `_decode_content`
raises (`LookupError` from `content.decode(charset)` is not caught by the
`except UnicodeDecodeError` handler), so it is not total in the supplied
charset. -/
theorem decode_content_raises_on_unknown_charset :
    _decode_content [114, 111, 98, 111, 116] (some "bogus") = .error .lookupError := rfl

/-! ### 404 handling (claim C2) -/

theorem getLoop_zero_eq (st : ClientState) (libs : CompressionLibs) (o : Oracle)
    (cat : List CatalogEntry) (env : Nat → AttemptOutcome) (rab : Bool)
    (maxR n : Nat) (kw : Kwargs) :
    getLoop st libs o cat env rab maxR 0 n kw =
      match getStep st libs o cat env rab maxR n kw with
      | .done tr res => (tr, res)
      | .retry entry _ r2 => ([entry], .ok r2) := by
  conv_lhs => rw [getLoop]

theorem getLoop_succ_eq (st : ClientState) (libs : CompressionLibs) (o : Oracle)
    (cat : List CatalogEntry) (env : Nat → AttemptOutcome) (rab : Bool)
    (maxR gas n : Nat) (kw : Kwargs) :
    getLoop st libs o cat env rab maxR (gas + 1) n kw =
      match getStep st libs o cat env rab maxR n kw with
      | .done tr res => (tr, res)
      | .retry entry kw2 _ =>
        match getLoop st libs o cat env rab maxR gas (n + 1) kw2 with
        | (tr, res) => (entry :: tr, res) := by
  conv_lhs => rw [getLoop]

theorem getStep_404 (st : ClientState) (libs : CompressionLibs) (o : Oracle)
    (cat : List CatalogEntry) (env : Nat → AttemptOutcome) (rab : Bool)
    (maxR n : Nat) (kw : Kwargs) (r : Response)
    (henv : env n = .ok r) (hstatus : r.status = 404) (hhist : r.historyLen ≤ 10) :
    ∃ hd ck px, getStep st libs o cat env rab maxR n kw =
      .done [TraceEntry.request n hd ck px] (.ok r) := by
  unfold getStep
  split
  split
  unfold attemptWith
  simp only [henv]
  rw [if_neg (by omega : ¬ 10 < r.historyLen), if_neg (by omega : ¬ r.status = 429),
    if_pos (by omega : 400 ≤ r.status), if_pos hstatus]
  exact ⟨_, _, _, rfl⟩

theorem getLoop_404 (st : ClientState) (libs : CompressionLibs) (o : Oracle)
    (cat : List CatalogEntry) (env : Nat → AttemptOutcome) (rab : Bool)
    (maxR gas n : Nat) (kw : Kwargs) (r : Response)
    (henv : env n = .ok r) (hstatus : r.status = 404) (hhist : r.historyLen ≤ 10) :
    ∃ hd ck px, getLoop st libs o cat env rab maxR gas n kw =
      ([TraceEntry.request n hd ck px], .ok r) := by
  obtain ⟨hd, ck, px, hstep⟩ :=
    getStep_404 st libs o cat env rab maxR n kw r henv hstatus hhist
  refine ⟨hd, ck, px, ?_⟩
  cases gas with
  | zero => simp only [getLoop_zero_eq, hstep]
  | succ g => simp only [getLoop_succ_eq, hstep]

/-- Claim C2: a 404 response received on the first attempt is returned to the
caller as a success after exactly one transport request, for every value of
`retry_anti_bot` and `max_antibot_retries`. -/
theorem get_404_returned_after_one_attempt (st : ClientState)
    (libs : CompressionLibs) (o : Oracle) (env : Nat → AttemptOutcome)
    (url : String) (rab : Bool) (maxR : Nat) (kwargs : Kwargs)
    (cat : List CatalogEntry) (r : Response)
    (hcat : mkCatalog url o = some cat) (henv : env 0 = .ok r)
    (hstatus : r.status = 404) (hhist : r.historyLen ≤ 10) :
    (get st libs o env url rab maxR kwargs).2 = .ok r ∧
    requestCount (get st libs o env url rab maxR kwargs).1 = 1 := by
  obtain ⟨hd, ck, px, hrun⟩ :=
    getLoop_404 st libs o cat env rab maxR maxR 0 kwargs r henv hstatus hhist
  have hget : get st libs o env url rab maxR kwargs =
      ([TraceEntry.request 0 hd ck px], .ok r) := by
    unfold get
    rw [hcat]
    exact hrun
  rw [hget]
  exact ⟨rfl, rfl⟩

/-- Claim C2 witness: a concrete run against a server that answers 404. -/
theorem get_404_returned_after_one_attempt_witness :
    mkCatalog sampleUrl sampleOracle = some sampleCat ∧
    env404 0 = .ok resp404 ∧ resp404.status = 404 ∧ resp404.historyLen ≤ 10 ∧
    ((get sampleState sampleLibs sampleOracle env404 sampleUrl true 8 ⟨none, none⟩).2 = .ok resp404 ∧
     requestCount (get sampleState sampleLibs sampleOracle env404 sampleUrl true 8 ⟨none, none⟩).1 = 1) :=
  ⟨rfl, rfl, rfl, by decide,
   get_404_returned_after_one_attempt sampleState sampleLibs sampleOracle env404
     sampleUrl true 8 ⟨none, none⟩ sampleCat resp404 rfl rfl rfl (by decide)⟩

/-! ### 429 and other HTTP errors (claims C3, C4) -/

/-- Claim C3: evaluation at the failing input.  A first attempt answered 429 with
`Retry-After: 7`, budget `max_antibot_retries = 8` and `retry_anti_bot = True`:
`get` sleeps the Retry-After duration and then the `httpx.RequestError` raised
at src/utils/http.py:487 is re-raised by the `except` handler at line 545-547
out of `get` after a single transport request — there is no further attempt
within the call, contradicting the claim that 429 loops within the same
attempt budget. -/
theorem get_429_raises_instead_of_retrying :
    (get sampleState sampleLibs sampleOracle env429 sampleUrl true 8 ⟨none, none⟩).2 =
      .error (.rateLimited 429) ∧
    requestCount (get sampleState sampleLibs sampleOracle env429 sampleUrl true 8 ⟨none, none⟩).1 = 1 ∧
    (get sampleState sampleLibs sampleOracle env429 sampleUrl true 8 ⟨none, none⟩).1.getLast? =
      some (.sleep 7) :=
  ⟨rfl, rfl, rfl⟩

/-- Claim C4: evaluation at the failing input.  A first attempt answered HTTP 500
with budget `max_antibot_retries = 8`: the `httpx.RequestError` raised at
src/utils/http.py:494 is re-raised out of `get` after a single transport
request; no retry of any kind happens inside `get`, contradicting the claim
that such errors are retried until the attempt budget is exhausted. -/
theorem get_500_raises_instead_of_retrying :
    (get sampleState sampleLibs sampleOracle env500 sampleUrl true 8 ⟨none, none⟩).2 =
      .error (.httpError 500) ∧
    requestCount (get sampleState sampleLibs sampleOracle env500 sampleUrl true 8 ⟨none, none⟩).1 = 1 :=
  ⟨rfl, rfl⟩

/-! ### Fingerprint selection (claim C7) -/

/-- Claim C7: evaluation at the failing input.  With every attempt flagged as
anti-bot and `max_antibot_retries = 6`, retries 5 and 6 send the byte-for-byte
same fingerprint — catalog entry `min(n, 5) = 5` (the Edge Windows custom
profile) — because the index saturates on the last *custom* profile, so the
fresh-randomized-fingerprint branch (src/utils/http.py:428-441, reachable only
for the non-custom entry 0) never runs on a retry.  This contradicts the
claim's "freshly randomized fingerprint rather than repeating a previously
sent fingerprint verbatim". -/
theorem get_fingerprint_repeats_when_catalog_exhausted :
    requestFingerprintAt
        (get sampleState sampleLibs sampleOracle envBot sampleUrl true 6 ⟨none, none⟩).1 5 =
      requestFingerprintAt
        (get sampleState sampleLibs sampleOracle envBot sampleUrl true 6 ⟨none, none⟩).1 6 ∧
    requestFingerprintAt
        (get sampleState sampleLibs sampleOracle envBot sampleUrl true 6 ⟨none, none⟩).1 5 =
      sampleCatFingerprint 5 ∧
    (sampleCatFingerprint 5).isSome = true :=
  ⟨rfl, rfl, rfl⟩

/-! ### Proxy fallback (claim C8) -/

/-- Claim C8: after `get_with_fallback` on a client with proxies enabled, the
`use_proxies` flag equals its value before the call — whether the proxied
attempt succeeds, the direct-fallback attempt succeeds, or both fail — because
the `finally` block restores it on every path. -/
theorem get_with_fallback_restores_proxy_flag (st : ClientState)
    (libs : CompressionLibs) (o1 o2 : Oracle) (env1 env2 : Nat → AttemptOutcome)
    (url : String) (rab : Bool) (maxR : Nat) (kwargs : Kwargs)
    (h : st.useProxies = true) :
    ((get_with_fallback st libs o1 o2 env1 env2 url rab maxR kwargs).2).useProxies =
      st.useProxies := by
  unfold get_with_fallback
  rw [h]
  rw [if_neg (by decide : ¬ ((!true) = true))]
  split
  · exact h
  · split
    · rfl
    · exact h

/-- Claim C8 witness: a concrete proxied client; the proxied attempt succeeds. -/
theorem get_with_fallback_restores_proxy_flag_witness :
    proxyState.useProxies = true ∧
    ((get_with_fallback proxyState sampleLibs sampleOracle sampleOracle env404
        env404 sampleUrl true 8 ⟨none, none⟩).2).useProxies = proxyState.useProxies :=
  ⟨rfl, get_with_fallback_restores_proxy_flag proxyState sampleLibs sampleOracle
    sampleOracle env404 env404 sampleUrl true 8 ⟨none, none⟩ rfl⟩

/-! ### Anti-bot retry exhaustion (claim C5) -/

theorem requestCount_cons_request (a : Nat) (hd ck : Headers) (px : Option String)
    (tr : List TraceEntry) :
    requestCount (TraceEntry.request a hd ck px :: tr) = requestCount tr + 1 := by
  simp [requestCount, List.countP_cons]

theorem getStep_ok (st : ClientState) (libs : CompressionLibs) (o : Oracle)
    (cat : List CatalogEntry) (env : Nat → AttemptOutcome) (rab : Bool)
    (maxR n : Nat) (kw : Kwargs) (r r2 : Response)
    (henv : env n = .ok r) (hh : r.historyLen ≤ 10) (hs : r.status = 200)
    (hov : applyTextOverride libs r = .ok r2) :
    (¬ (rab = true ∧ n < maxR ∧ antiBotDetected r2.text = true) →
      ∃ hd2 ck px, getStep st libs o cat env rab maxR n kw =
        .done [TraceEntry.request n hd2 ck px] (.ok r2)) ∧
    ((rab = true ∧ n < maxR ∧ antiBotDetected r2.text = true) →
      ∃ hd2 ck px kw2, getStep st libs o cat env rab maxR n kw =
        .retry (TraceEntry.request n hd2 ck px) kw2 r2) := by
  unfold getStep
  split
  split
  unfold attemptWith
  simp only [henv]
  rw [if_neg (by omega : ¬ 10 < r.historyLen), if_neg (by omega : ¬ r.status = 429),
    if_neg (by omega : ¬ 400 ≤ r.status)]
  simp only [hov]
  constructor
  · intro hstop
    rw [if_neg hstop]
    exact ⟨_, _, _, rfl⟩
  · intro hgo
    rw [if_pos hgo]
    exact ⟨_, _, _, _, rfl⟩

theorem getLoop_antibot_exhausts (st : ClientState) (libs : CompressionLibs)
    (o : Oracle) (cat : List CatalogEntry) (env : Nat → AttemptOutcome)
    (maxR : Nat) (r r2 : Nat → Response)
    (henv : ∀ k, k ≤ maxR → env k = .ok (r k))
    (hh : ∀ k, k ≤ maxR → (r k).historyLen ≤ 10)
    (hs : ∀ k, k ≤ maxR → (r k).status = 200)
    (hov : ∀ k, k ≤ maxR → applyTextOverride libs (r k) = .ok (r2 k))
    (hdet : ∀ k, k ≤ maxR → antiBotDetected ((r2 k).text) = true) :
    ∀ gas n kw, gas = maxR - n → n ≤ maxR →
      (getLoop st libs o cat env true maxR gas n kw).2 = .ok (r2 maxR) ∧
      requestCount (getLoop st libs o cat env true maxR gas n kw).1 = gas + 1 := by
  intro gas
  induction gas with
  | zero =>
      intro n kw hg hn
      have hnm : n = maxR := by omega
      subst hnm
      obtain ⟨hd2, ck, px, hstep⟩ :=
        (getStep_ok st libs o cat env true n n kw (r n) (r2 n) (henv n le_rfl)
          (hh n le_rfl) (hs n le_rfl) (hov n le_rfl)).1 (by omega)
      simp [getLoop_zero_eq, hstep, requestCount]
  | succ gas ih =>
      intro n kw hg hn
      have hlt : n < maxR := by omega
      obtain ⟨hd2, ck, px, kw2, hstep⟩ :=
        (getStep_ok st libs o cat env true maxR n kw (r n) (r2 n)
          (henv n (by omega)) (hh n (by omega)) (hs n (by omega))
          (hov n (by omega))).2 ⟨rfl, hlt, hdet n (by omega)⟩
      have hrec := ih (n + 1) kw2 (by omega) (by omega)
      cases hrun : getLoop st libs o cat env true maxR gas (n + 1) kw2 with
      | mk tr res =>
          rw [hrun] at hrec
          simp only [getLoop_succ_eq, hstep, hrun]
          refine ⟨hrec.1, ?_⟩
          rw [requestCount_cons_request]
          have h2 : requestCount tr = gas + 1 := hrec.2
          omega

/-- Claim C5: when `retry_anti_bot` is enabled and every attempt yields a 200
response whose (possibly decompressed and re-decoded) body matches an anti-bot
signature, `get` performs exactly `max_antibot_retries` anti-bot retries
(`maxR + 1` transport requests in total) and then returns the last fetched
response to the caller as a success, raising nothing. -/
theorem get_antibot_exhaustion_returns_last (st : ClientState)
    (libs : CompressionLibs) (o : Oracle) (env : Nat → AttemptOutcome)
    (url : String) (maxR : Nat) (kwargs : Kwargs) (cat : List CatalogEntry)
    (r r2 : Nat → Response)
    (hcat : mkCatalog url o = some cat)
    (henv : ∀ k, k ≤ maxR → env k = .ok (r k))
    (hh : ∀ k, k ≤ maxR → (r k).historyLen ≤ 10)
    (hs : ∀ k, k ≤ maxR → (r k).status = 200)
    (hov : ∀ k, k ≤ maxR → applyTextOverride libs (r k) = .ok (r2 k))
    (hdet : ∀ k, k ≤ maxR → antiBotDetected ((r2 k).text) = true) :
    (get st libs o env url true maxR kwargs).2 = .ok (r2 maxR) ∧
    requestCount (get st libs o env url true maxR kwargs).1 = maxR + 1 := by
  have hmain := getLoop_antibot_exhausts st libs o cat env maxR r r2 henv hh hs hov
    hdet maxR 0 kwargs (by omega) (by omega)
  unfold get
  rw [hcat]
  exact hmain

/-- Claim C5 witness: a server that always answers a 200 `robot` page, with a
budget of one retry. -/
theorem get_antibot_exhaustion_returns_last_witness :
    mkCatalog sampleUrl sampleOracle = some sampleCat ∧
    (∀ k, k ≤ 1 → envBot k = .ok respBot) ∧
    (∀ k, k ≤ 1 → applyTextOverride sampleLibs respBot = .ok respBot) ∧
    (∀ k, k ≤ 1 → antiBotDetected respBot.text = true) ∧
    ((get sampleState sampleLibs sampleOracle envBot sampleUrl true 1 ⟨none, none⟩).2 =
        .ok respBot ∧
      requestCount (get sampleState sampleLibs sampleOracle envBot sampleUrl true 1
        ⟨none, none⟩).1 = 1 + 1) :=
  ⟨rfl, fun _ _ => rfl, fun _ _ => rfl, fun _ _ => rfl,
   get_antibot_exhaustion_returns_last sampleState sampleLibs sampleOracle envBot
     sampleUrl 1 ⟨none, none⟩ sampleCat (fun _ => respBot) (fun _ => respBot) rfl
     (fun _ _ => rfl)
     (fun _ _ => by show respBot.historyLen ≤ 10; decide)
     (fun _ _ => by show respBot.status = 200; rfl)
     (fun _ _ => by show applyTextOverride sampleLibs respBot = .ok respBot; rfl)
     (fun _ _ => by show antiBotDetected respBot.text = true; rfl)⟩

/-! ### Retry fingerprints and caller overrides (claim C10) -/

theorem requestFingerprintAt_cons_request (a : Nat) (hd ck : Headers)
    (px : Option String) (tr : List TraceEntry) (k : Nat) :
    requestFingerprintAt (TraceEntry.request a hd ck px :: tr) k =
      if a = k then some (hd, ck) else requestFingerprintAt tr k := rfl

theorem requestFingerprintAt_cons_sleep (t : Int) (tr : List TraceEntry) (k : Nat) :
    requestFingerprintAt (TraceEntry.sleep t :: tr) k = requestFingerprintAt tr k := rfl

theorem requestFingerprintAt_mem (tr : List TraceEntry) (k : Nat)
    (fp : Headers × Headers) (h : requestFingerprintAt tr k = some fp) :
    ∃ px, TraceEntry.request k fp.1 fp.2 px ∈ tr := by
  induction tr with
  | nil => simp [requestFingerprintAt] at h
  | cons e rest ih =>
      cases e with
      | request a hd ck px =>
          rw [requestFingerprintAt_cons_request] at h
          by_cases hak : a = k
          · rw [if_pos hak] at h
            refine ⟨px, ?_⟩
            obtain rfl : fp = (hd, ck) := by
              cases h; rfl
            subst hak
            exact List.mem_cons_self _ _
          · rw [if_neg hak] at h
            obtain ⟨px2, hmem⟩ := ih h
            exact ⟨px2, List.mem_cons_of_mem _ hmem⟩
      | sleep t =>
          rw [requestFingerprintAt_cons_sleep] at h
          obtain ⟨px2, hmem⟩ := ih h
          exact ⟨px2, List.mem_cons_of_mem _ hmem⟩

theorem attemptWith_entries (libs : CompressionLibs) (env : Nat → AttemptOutcome)
    (rab : Bool) (maxR n : Nat) (entry : TraceEntry) (kw2 : Kwargs) :
    (∀ tr res, attemptWith libs env rab maxR n entry kw2 = .done tr res →
      ∀ e ∈ tr, e = entry ∨ ∃ t, e = TraceEntry.sleep t) ∧
    (∀ e kw3 r2, attemptWith libs env rab maxR n entry kw2 = .retry e kw3 r2 →
      e = entry ∧ kw3 = kw2) := by
  constructor
  · intro tr res heq e hmem
    unfold attemptWith at heq
    repeat' split at heq
    all_goals
      first
        | (injection heq with h1 h2; subst h1; aesop)
        | injection heq
  · intro e kw3 r2 heq
    unfold attemptWith at heq
    repeat' split at heq
    all_goals
      first
        | (injection heq with h1 h2 h3; exact ⟨h1.symm, h2.symm⟩)
        | injection heq

theorem getStep_custom (st : ClientState) (libs : CompressionLibs) (o : Oracle)
    (cat : List CatalogEntry) (env : Nat → AttemptOutcome) (rab : Bool)
    (maxR n : Nat) (kw : Kwargs) (p : CustomProfile)
    (hn : 1 ≤ n) (hkw : kw.headers = none)
    (hcat : cat.getD (min n (cat.length - 1)) .default = .custom p) :
    getStep st libs o cat env rab maxR n kw =
      attemptWith libs env rab maxR n
        (TraceEntry.request n p.headers p.cookies (pickProxy st o n)) kw := by
  have h1 : selectProfile o cat n kw = (p.headers, p.cookies, kw) := by
    unfold selectProfile
    rw [if_neg (by omega : ¬ n = 0), hcat]
  have h2 : applyHeaderOverrides p.headers kw = (p.headers, kw) := by
    unfold applyHeaderOverrides
    rw [hkw]
  unfold getStep
  simp only [h1, h2]

theorem getStep_zero_overrides (st : ClientState) (libs : CompressionLibs)
    (o : Oracle) (cat : List CatalogEntry) (env : Nat → AttemptOutcome)
    (rab : Bool) (maxR : Nat) (H : Headers) (kwc : Option Headers) :
    getStep st libs o cat env rab maxR 0 ⟨some H, kwc⟩ =
      attemptWith libs env rab maxR 0
        (TraceEntry.request 0 (dictUpdate (_get_browser_headers o 0) H) (kwc.getD [])
          (pickProxy st o 0)) ⟨none, none⟩ := rfl

theorem mkCatalog_custom (url : String) (o : Oracle) (cat : List CatalogEntry)
    (hcat : mkCatalog url o = some cat) :
    ∀ i, 1 ≤ i → ∃ p : CustomProfile,
      cat.getD (min i (cat.length - 1)) .default = .custom p := by
  unfold mkCatalog at hcat
  cases hr : urlOriginReferer url with
  | none => rw [hr] at hcat; simp at hcat
  | some ref =>
      rw [hr] at hcat
      simp only [Option.map_some'] at hcat
      obtain rfl : _ = cat := by
        cases hcat; rfl
      intro i hi
      have hlen : min i 5 = 1 ∨ min i 5 = 2 ∨ min i 5 = 3 ∨ min i 5 = 4 ∨
          min i 5 = 5 := by omega
      rcases hlen with h | h | h | h | h <;>
        · simp only [List.length_cons, List.length_nil]
          rw [show (5 + 1 - 1 : Nat) = 5 from rfl] at *
          rw [h]
          exact ⟨_, rfl⟩

theorem getLoop_fingerprints_catalog (st : ClientState) (libs : CompressionLibs)
    (o : Oracle) (cat : List CatalogEntry) (env : Nat → AttemptOutcome)
    (rab : Bool) (maxR : Nat)
    (hcust : ∀ i, 1 ≤ i → ∃ p : CustomProfile,
      cat.getD (min i (cat.length - 1)) .default = .custom p) :
    ∀ gas n kw, kw.headers = none → 1 ≤ n → ∀ k f1 f2,
      requestFingerprintAt (getLoop st libs o cat env rab maxR gas n kw).1 k =
        some (f1, f2) →
      ∃ p : CustomProfile, cat.getD (min k (cat.length - 1)) .default = .custom p ∧
        f1 = p.headers ∧ f2 = p.cookies := by
  intro gas
  induction gas with
  | zero =>
      intro n kw hkw hn k f1 f2 hfp
      obtain ⟨p, hp⟩ := hcust n hn
      rw [getLoop_zero_eq,
        getStep_custom st libs o cat env rab maxR n kw p hn hkw hp] at hfp
      cases hstep : attemptWith libs env rab maxR n
          (TraceEntry.request n p.headers p.cookies (pickProxy st o n)) kw with
      | done tr res =>
          rw [hstep] at hfp
          obtain ⟨px, hmem⟩ := requestFingerprintAt_mem _ _ _ hfp
          have hent := ((attemptWith_entries libs env rab maxR n _ kw).1 _ _ hstep) _ hmem
          rcases hent with hent | ⟨t, hent⟩
          · obtain ⟨rfl, rfl, rfl, -⟩ :
                k = n ∧ f1 = p.headers ∧ f2 = p.cookies ∧ px = pickProxy st o n := by
              cases hent; exact ⟨rfl, rfl, rfl, rfl⟩
            exact ⟨p, hp, rfl, rfl⟩
          · cases hent
      | retry e kw3 r2 =>
          obtain ⟨he, -⟩ := (attemptWith_entries libs env rab maxR n _ kw).2 _ _ _ hstep
          subst he
          simp only [hstep, requestFingerprintAt_cons_request] at hfp
          by_cases hnk : n = k
          · rw [if_pos hnk] at hfp
            obtain ⟨rfl, rfl⟩ : f1 = p.headers ∧ f2 = p.cookies := by
              cases hfp; exact ⟨rfl, rfl⟩
            subst hnk
            exact ⟨p, hp, rfl, rfl⟩
          · rw [if_neg hnk] at hfp
            simp [requestFingerprintAt] at hfp
  | succ gas ih =>
      intro n kw hkw hn k f1 f2 hfp
      obtain ⟨p, hp⟩ := hcust n hn
      rw [getLoop_succ_eq,
        getStep_custom st libs o cat env rab maxR n kw p hn hkw hp] at hfp
      cases hstep : attemptWith libs env rab maxR n
          (TraceEntry.request n p.headers p.cookies (pickProxy st o n)) kw with
      | done tr res =>
          rw [hstep] at hfp
          obtain ⟨px, hmem⟩ := requestFingerprintAt_mem _ _ _ hfp
          have hent := ((attemptWith_entries libs env rab maxR n _ kw).1 _ _ hstep) _ hmem
          rcases hent with hent | ⟨t, hent⟩
          · obtain ⟨rfl, rfl, rfl, -⟩ :
                k = n ∧ f1 = p.headers ∧ f2 = p.cookies ∧ px = pickProxy st o n := by
              cases hent; exact ⟨rfl, rfl, rfl, rfl⟩
            exact ⟨p, hp, rfl, rfl⟩
          · cases hent
      | retry e kw3 r2 =>
          obtain ⟨he, hkw3⟩ := (attemptWith_entries libs env rab maxR n _ kw).2 _ _ _ hstep
          subst he
          rw [hkw3] at hstep
          cases hrun : getLoop st libs o cat env rab maxR gas (n + 1) kw with
          | mk tr2 res2 =>
              simp only [hstep, hrun, requestFingerprintAt_cons_request] at hfp
              by_cases hnk : n = k
              · rw [if_pos hnk] at hfp
                obtain ⟨rfl, rfl⟩ : f1 = p.headers ∧ f2 = p.cookies := by
                  cases hfp; exact ⟨rfl, rfl⟩
                subst hnk
                exact ⟨p, hp, rfl, rfl⟩
              · rw [if_neg hnk] at hfp
                exact ih (n + 1) kw hkw (by omega) k f1 f2 (by rw [hrun]; exact hfp)

/-- Claim C10: caller-supplied header and cookie overrides are applied to the
first attempt only: they are popped from kwargs on the first loop iteration,
so every anti-bot retry attempt `k ≥ 1` sends the selected catalog profile's
headers and cookies verbatim, without the caller's overrides. -/
theorem get_retry_fingerprints_ignore_caller_overrides (st : ClientState)
    (libs : CompressionLibs) (o : Oracle) (env : Nat → AttemptOutcome)
    (url : String) (rab : Bool) (maxR : Nat) (H C : Headers)
    (cat : List CatalogEntry) (k : Nat) (f1 f2 : Headers)
    (hcat : mkCatalog url o = some cat) (hk : 1 ≤ k)
    (hfp : requestFingerprintAt
      (get st libs o env url rab maxR ⟨some H, some C⟩).1 k = some (f1, f2)) :
    ∃ p : CustomProfile, cat.getD (min k (cat.length - 1)) .default = .custom p ∧
      f1 = p.headers ∧ f2 = p.cookies := by
  have hcust := mkCatalog_custom url o cat hcat
  unfold get at hfp
  rw [hcat] at hfp
  simp only at hfp
  cases maxR with
  | zero =>
      rw [getLoop_zero_eq, getStep_zero_overrides] at hfp
      cases hstep : attemptWith libs env rab 0 0
          (TraceEntry.request 0 (dictUpdate (_get_browser_headers o 0) H)
            (Option.getD (some C) []) (pickProxy st o 0)) ⟨none, none⟩ with
      | done tr res =>
          rw [hstep] at hfp
          obtain ⟨px, hmem⟩ := requestFingerprintAt_mem _ _ _ hfp
          have hent := ((attemptWith_entries libs env rab 0 0 _ _).1 _ _ hstep) _ hmem
          rcases hent with hent | ⟨t, hent⟩
          · obtain hk0 : k = 0 := by cases hent; rfl
            omega
          · cases hent
      | retry e kw3 r2 =>
          obtain ⟨he, -⟩ := (attemptWith_entries libs env rab 0 0 _ _).2 _ _ _ hstep
          subst he
          simp only [hstep, requestFingerprintAt_cons_request] at hfp
          rw [if_neg (by omega : ¬ (0 : Nat) = k)] at hfp
          simp [requestFingerprintAt] at hfp
  | succ g =>
      rw [getLoop_succ_eq, getStep_zero_overrides] at hfp
      cases hstep : attemptWith libs env rab (g + 1) 0
          (TraceEntry.request 0 (dictUpdate (_get_browser_headers o 0) H)
            (Option.getD (some C) []) (pickProxy st o 0)) ⟨none, none⟩ with
      | done tr res =>
          rw [hstep] at hfp
          obtain ⟨px, hmem⟩ := requestFingerprintAt_mem _ _ _ hfp
          have hent := ((attemptWith_entries libs env rab (g + 1) 0 _ _).1 _ _ hstep) _ hmem
          rcases hent with hent | ⟨t, hent⟩
          · obtain hk0 : k = 0 := by cases hent; rfl
            omega
          · cases hent
      | retry e kw3 r2 =>
          obtain ⟨he, hkw3⟩ := (attemptWith_entries libs env rab (g + 1) 0 _ _).2 _ _ _ hstep
          subst he
          rw [hkw3] at hstep
          cases hrun : getLoop st libs o cat env rab (g + 1) g 1 ⟨none, none⟩ with
          | mk tr2 res2 =>
              simp only [hstep, Nat.zero_add, hrun, requestFingerprintAt_cons_request] at hfp
              rw [if_neg (by omega : ¬ (0 : Nat) = k)] at hfp
              exact getLoop_fingerprints_catalog st libs o cat env rab (g + 1) hcust
                g 1 ⟨none, none⟩ rfl le_rfl k f1 f2 (by rw [hrun]; exact hfp)

/-- Claim C10 witness: a concrete run with caller header and cookie overrides
against an anti-bot server; retry 1 sends catalog profile 1 (Desktop Chrome)
verbatim. -/
theorem get_retry_fingerprints_ignore_caller_overrides_witness :
    (1 : Nat) ≤ 1 ∧
    mkCatalog sampleUrl sampleOracle = some sampleCat ∧
    requestFingerprintAt (get sampleState sampleLibs sampleOracle envBot sampleUrl
        true 2 ⟨some [("X-Test", "1")], some [("c", "1")]⟩).1 1 =
      some (sampleFp1, sampleFp2) ∧
    ∃ p : CustomProfile,
      sampleCat.getD (min 1 (sampleCat.length - 1)) .default = .custom p ∧
      sampleFp1 = p.headers ∧ sampleFp2 = p.cookies :=
  ⟨le_rfl, rfl, rfl,
   get_retry_fingerprints_ignore_caller_overrides sampleState sampleLibs sampleOracle
     envBot sampleUrl true 2 [("X-Test", "1")] [("c", "1")] sampleCat 1 sampleFp1
     sampleFp2 rfl le_rfl rfl⟩

/-! ### Property hash determinism (claim C1) -/

theorem strField_ne_nil (os : Option String) (h : strTruthy os = true) :
    strField os ≠ [] := by
  cases os with
  | none => simp [strTruthy] at h
  | some s =>
      simp only [strTruthy, decide_eq_true_eq] at h
      simp [strField, h]

theorem numField_ne_nil (tag : String) (on2 : Option Nat) (h : natTruthy on2 = true) :
    numField tag on2 ≠ [] := by
  cases on2 with
  | none => simp [natTruthy] at h
  | some a =>
      simp only [natTruthy, decide_eq_true_eq] at h
      simp [numField, h]

theorem identCore_eq_of_sameIdentFields (l1 l2 : PropertyListing)
    (h : sameIdentFields l1 l2) : identCore l1 = identCore l2 := by
  obtain ⟨h1, h2, h3, h4, h5, h6, h7, h8⟩ := h
  unfold identCore
  rw [h1, h2, h3, h4, h5, h6, h7, h8]

theorem identCore_ne_nil_of_hasIdentifier (l : PropertyListing)
    (h : hasIdentifier l = true) : identCore l ≠ [] := by
  intro hnil
  unfold identCore at hnil
  have e1 := List.append_eq_nil.mp hnil
  have e2 := List.append_eq_nil.mp e1.1
  have e3 := List.append_eq_nil.mp e2.1
  have e4 := List.append_eq_nil.mp e3.1
  have e5 := List.append_eq_nil.mp e4.1
  have e6 := List.append_eq_nil.mp e5.1
  have e7 := List.append_eq_nil.mp e6.1
  unfold hasIdentifier at h
  simp only [Bool.or_eq_true] at h
  rcases h with (((((((h | h) | h) | h) | h) | h) | h) | h)
  · exact strField_ne_nil _ h e7.1
  · exact strField_ne_nil _ h e7.2
  · exact strField_ne_nil _ h e6.2
  · exact strField_ne_nil _ h e5.2
  · exact strField_ne_nil _ h e4.2
  · exact strField_ne_nil _ h e3.2
  · exact numField_ne_nil _ _ h e2.2
  · exact numField_ne_nil _ _ h e1.2

/-- Claim C1: `_generate_property_hash` is deterministic on the identifying
fields: two listings with equal identifying fields, at least one of which is
present, hash identically — for both scrapers and regardless of the uuid
drawn by the fallback (which models independence from the crawl or scraper
call that built the listing, since the digest is a pure function of those
fields). -/
theorem generate_property_hash_deterministic (l1 l2 : PropertyListing)
    (u1 u2 : String) (hsame : sameIdentFields l1 l2)
    (hpres : hasIdentifier l1 = true) :
    _generate_property_hash l1 u1 = _generate_property_hash l2 u2 ∧
    hurenInHollandRijnland_generate_property_hash l1 u1 =
      hurenInHollandRijnland_generate_property_hash l2 u2 := by
  have hcore := identCore_eq_of_sameIdentFields l1 l2 hsame
  have hne2 : identCore l2 ≠ [] := hcore ▸ identCore_ne_nil_of_hasIdentifier l1 hpres
  have hid : identifiers l1 u1 = identifiers l2 u2 := by
    unfold identifiers
    rw [hcore]
    rw [if_neg hne2, if_neg hne2]
  have hin : hashInput l1 u1 = hashInput l2 u2 := by
    unfold hashInput
    rw [hid]
  exact ⟨congrArg md5hex hin, congrArg md5hex hin⟩

/-- Claim C1 witness: two listings equal on identifying fields but built with
different descriptions and different uuid draws. -/
theorem generate_property_hash_deterministic_witness :
    sameIdentFields
      ⟨some "https://x/1", some "id1", some "t", none, none, some "Leiden",
        some 72, some 1500, some "first crawl"⟩
      ⟨some "https://x/1", some "id1", some "t", none, none, some "Leiden",
        some 72, some 1500, some "second crawl"⟩ ∧
    hasIdentifier
      ⟨some "https://x/1", some "id1", some "t", none, none, some "Leiden",
        some 72, some 1500, some "first crawl"⟩ = true ∧
    (_generate_property_hash
        ⟨some "https://x/1", some "id1", some "t", none, none, some "Leiden",
          some 72, some 1500, some "first crawl"⟩ "uuid-a" =
      _generate_property_hash
        ⟨some "https://x/1", some "id1", some "t", none, none, some "Leiden",
          some 72, some 1500, some "second crawl"⟩ "uuid-b" ∧
    hurenInHollandRijnland_generate_property_hash
        ⟨some "https://x/1", some "id1", some "t", none, none, some "Leiden",
          some 72, some 1500, some "first crawl"⟩ "uuid-a" =
      hurenInHollandRijnland_generate_property_hash
        ⟨some "https://x/1", some "id1", some "t", none, none, some "Leiden",
          some 72, some 1500, some "second crawl"⟩ "uuid-b") :=
  ⟨by constructor <;> first | rfl | (constructor <;> first | rfl | (repeat' constructor)),
   rfl,
   generate_property_hash_deterministic _ _ "uuid-a" "uuid-b"
     ⟨rfl, rfl, rfl, rfl, rfl, rfl, rfl, rfl⟩ rfl⟩

/-! ### Hash-input collisions and injectivity (claim C9) -/

/-- Claim C9 counterexample: the listing with only `url = "x"` and the listing
with only `source_id = "x"` differ in identifying fields, yet both yield the
pipe-joined hash input `"x"` and hence the same digest: the hash is not
sensitive to every identifying field, because absent fields are skipped in
the join. -/
theorem property_hash_collision_counterexample :
    (PropertyListing.mk (some "x") none none none none none none none none).url ≠
      (PropertyListing.mk none (some "x") none none none none none none none).url ∧
    hashInput (PropertyListing.mk (some "x") none none none none none none none none)
        "u" =
      hashInput (PropertyListing.mk none (some "x") none none none none none none none)
        "u" ∧
    _generate_property_hash
        (PropertyListing.mk (some "x") none none none none none none none none) "u" =
      _generate_property_hash
        (PropertyListing.mk none (some "x") none none none none none none none) "u" :=
  ⟨by decide, rfl, rfl⟩

theorem natDigitsAux_lt_base :
    ∀ fuel n, n ≤ fuel → ∀ d ∈ natDigitsAux fuel n, d < 10 := by
  intro fuel
  induction fuel with
  | zero =>
      intro n hn d hd
      interval_cases n
      exact absurd hd (by intro hc; cases hc)
  | succ fuel ih =>
      intro n hn d hd
      cases n with
      | zero => exact absurd hd (by intro hc; cases hc)
      | succ m =>
          rw [show natDigitsAux (fuel + 1) (m + 1) =
            (m + 1) % 10 :: natDigitsAux fuel ((m + 1) / 10) from rfl] at hd
          rcases List.mem_cons.mp hd with rfl | hd2
          · exact Nat.mod_lt _ (by omega)
          · exact ih ((m + 1) / 10) (by omega) d hd2

theorem natDigitsAux_val : ∀ fuel n, n ≤ fuel →
    Nat.ofDigits 10 (natDigitsAux fuel n) = n := by
  intro fuel
  induction fuel with
  | zero =>
      intro n hn
      interval_cases n
      exact Nat.ofDigits_nil
  | succ fuel ih =>
      intro n hn
      cases n with
      | zero => exact Nat.ofDigits_nil
      | succ m =>
          rw [show natDigitsAux (fuel + 1) (m + 1) =
            (m + 1) % 10 :: natDigitsAux fuel ((m + 1) / 10) from rfl]
          rw [Nat.ofDigits_cons, ih ((m + 1) / 10) (by omega)]
          omega

theorem charDigitVal_digitChar : ∀ d, d < 10 → charDigitVal (Nat.digitChar d) = d := by
  decide

theorem digitChar_ne_pipe : ∀ d, d < 10 → Nat.digitChar d ≠ '|' := by decide

theorem data_asString (l : List Char) : (List.asString l).data = l := rfl

theorem natToStr_roundtrip (n : Nat) : strDigitsVal (natToStr n).data = n := by
  unfold natToStr
  by_cases hn : n = 0
  · rw [if_pos hn]
    subst hn
    decide
  · rw [if_neg hn, data_asString]
    unfold strDigitsVal
    rw [List.map_reverse, List.map_map, ← List.map_reverse, List.reverse_reverse]
    have hdig := natDigitsAux_lt_base n n le_rfl
    have hmap : (natDigits n).map (charDigitVal ∘ Nat.digitChar) = natDigits n := by
      have h1 : ∀ d ∈ natDigits n, (charDigitVal ∘ Nat.digitChar) d = id d :=
        fun d hd => charDigitVal_digitChar d (hdig d hd)
      rw [List.map_congr_left h1, List.map_id]
    rw [hmap]
    exact natDigitsAux_val n n le_rfl

theorem natToStr_data_inj (m n : Nat) (h : (natToStr m).data = (natToStr n).data) :
    m = n := by
  have hm := natToStr_roundtrip m
  have hn := natToStr_roundtrip n
  rw [← hm, ← hn, h]

theorem natDigits_ne_nil (n : Nat) (hn : n ≠ 0) : natDigits n ≠ [] := by
  cases n with
  | zero => omega
  | succ m => simp [natDigits, natDigitsAux]

theorem natToStr_pipe_free (n : Nat) : '|' ∉ (natToStr n).data := by
  unfold natToStr
  by_cases hn : n = 0
  · rw [if_pos hn]
    decide
  · rw [if_neg hn, data_asString]
    intro hmem
    obtain ⟨d, hd, hdc⟩ := List.mem_map.mp hmem
    have hlt : d < 10 := natDigitsAux_lt_base n n le_rfl d (List.mem_reverse.mp hd)
    exact digitChar_ne_pipe d hlt hdc

theorem natToStr_ne_empty (n : Nat) : natToStr n ≠ "" := by
  intro h
  have hd := congrArg String.data h
  rw [show ("" : String).data = [] from rfl] at hd
  unfold natToStr at hd
  by_cases hn : n = 0
  · rw [if_pos hn] at hd
    simp at hd
  · rw [if_neg hn, data_asString] at hd
    rw [List.map_eq_nil_iff, List.reverse_eq_nil_iff] at hd
    exact natDigits_ne_nil n hn hd

theorem pyJoin_pipe_data (xs : List String) :
    (pyJoin "|" xs).data = joinPipe (xs.map String.data) := by
  induction xs with
  | nil => rfl
  | cons x rest ih =>
      cases rest with
      | nil => rfl
      | cons y xs2 =>
          show (x ++ "|" ++ pyJoin "|" (y :: xs2)).data = _
          rw [String.data_append, String.data_append, ih]
          simp [joinPipe, List.append_assoc]

theorem pipe_sep_split : ∀ a b r1 r2 : List Char, '|' ∉ a → '|' ∉ b →
    a ++ '|' :: r1 = b ++ '|' :: r2 → a = b ∧ r1 = r2 := by
  intro a
  induction a with
  | nil =>
      intro b r1 r2 _ hb h
      cases b with
      | nil => simpa using h
      | cons c bs =>
          simp only [List.nil_append, List.cons_append, List.cons.injEq] at h
          exact absurd (show ('|' : Char) ∈ c :: bs by
            rw [h.1]; exact List.mem_cons_self c bs) hb
  | cons c as ih =>
      intro b r1 r2 ha hb h
      cases b with
      | nil =>
          simp only [List.cons_append, List.nil_append, List.cons.injEq] at h
          exact absurd (show ('|' : Char) ∈ c :: as by
            rw [← h.1]; exact List.mem_cons_self c as) ha
      | cons d bs =>
          simp only [List.cons_append, List.cons.injEq] at h
          obtain ⟨rfl, h2⟩ := h
          have hrec := ih bs r1 r2 (fun hx => ha (List.mem_cons_of_mem c hx))
            (fun hx => hb (List.mem_cons_of_mem c hx)) h2
          exact ⟨by rw [hrec.1], hrec.2⟩

theorem joinPipe_inj : ∀ xs ys : List (List Char), xs.length = ys.length →
    (∀ x ∈ xs, '|' ∉ x) → (∀ y ∈ ys, '|' ∉ y) →
    joinPipe xs = joinPipe ys → xs = ys := by
  intro xs
  induction xs with
  | nil =>
      intro ys hlen _ _ _
      cases ys with
      | nil => rfl
      | cons y ys2 => simp at hlen
  | cons x rest ih =>
      intro ys hlen hxs hys h
      cases ys with
      | nil => simp at hlen
      | cons y ys2 =>
          cases rest with
          | nil =>
              cases ys2 with
              | nil =>
                  simp only [joinPipe] at h
                  rw [h]
              | cons z zs => simp at hlen
          | cons x2 rest2 =>
              cases ys2 with
              | nil => simp at hlen
              | cons y2 zs2 =>
                  rw [show joinPipe (x :: x2 :: rest2) =
                      x ++ '|' :: joinPipe (x2 :: rest2) from rfl,
                    show joinPipe (y :: y2 :: zs2) =
                      y ++ '|' :: joinPipe (y2 :: zs2) from rfl] at h
                  obtain ⟨rfl, h2⟩ := pipe_sep_split x y _ _
                    (hxs x (by simp)) (hys y (by simp)) h
                  have := ih (y2 :: zs2) (by simpa using hlen)
                    (fun z hz => hxs z (by simp [hz]))
                    (fun z hz => hys z (by simp [hz])) h2
                  rw [this]

theorem strTruthy_destruct (os : Option String) (h : strTruthy os = true) :
    ∃ s, os = some s ∧ s ≠ "" := by
  cases os with
  | none => simp [strTruthy] at h
  | some s =>
      refine ⟨s, rfl, ?_⟩
      simpa [strTruthy, decide_eq_true_eq] using h

theorem natTruthy_destruct (on2 : Option Nat) (h : natTruthy on2 = true) :
    ∃ a, on2 = some a ∧ a ≠ 0 := by
  cases on2 with
  | none => simp [natTruthy] at h
  | some a =>
      refine ⟨a, rfl, ?_⟩
      simpa [natTruthy, decide_eq_true_eq] using h

theorem append_ne_empty_left (t x : String) (ht : t ≠ "") : t ++ x ≠ "" := by
  intro h
  apply ht
  have hd := congrArg String.data h
  rw [String.data_append, show ("" : String).data = [] from rfl] at hd
  have h2 := List.append_eq_nil.mp hd
  exact String.ext (by rw [h2.1])

theorem pipeFreeOpt_destruct (s : String) (h : pipeFreeOpt (some s) = true) :
    ('|' : Char) ∉ s.data := by
  simpa [pipeFreeOpt, decide_eq_true_eq] using h

theorem tagged_num_pipe_free (t : String) (n : Nat)
    (ht : ('|' : Char) ∉ t.data) : ('|' : Char) ∉ (t ++ natToStr n).data := by
  rw [String.data_append]
  intro hc
  rcases List.mem_append.mp hc with hc | hc
  · exact ht hc
  · exact natToStr_pipe_free _ hc

/-- Claim C9 (amended): on listings whose eight identifying fields are all
present (truthy) and whose string fields contain no `'|'`, the pipe-joined
hash input is injective: equal hash inputs force equal identifying fields.
(As stated — for arbitrary listings — the claim is false, because absent
fields are skipped in the join; see the counterexample.) -/
theorem hash_input_injective_on_present_pipe_free (l1 l2 : PropertyListing)
    (u1 u2 : String)
    (hp1 : allIdentPresent l1 = true) (hp2 : allIdentPresent l2 = true)
    (hf1 : pipeFreeFields l1 = true) (hf2 : pipeFreeFields l2 = true)
    (heq : hashInput l1 u1 = hashInput l2 u2) :
    sameIdentFields l1 l2 := by
  unfold allIdentPresent at hp1 hp2
  simp only [Bool.and_eq_true] at hp1 hp2
  obtain ⟨⟨⟨⟨⟨⟨⟨hu1, hs1⟩, ht1⟩, ha1⟩, hpc1⟩, hc1⟩, har1⟩, hpr1⟩ := hp1
  obtain ⟨⟨⟨⟨⟨⟨⟨hu2, hs2⟩, ht2⟩, ha2⟩, hpc2⟩, hc2⟩, har2⟩, hpr2⟩ := hp2
  obtain ⟨xu, hxu, hxu0⟩ := strTruthy_destruct _ hu1
  obtain ⟨xs, hxs, hxs0⟩ := strTruthy_destruct _ hs1
  obtain ⟨xt, hxt, hxt0⟩ := strTruthy_destruct _ ht1
  obtain ⟨xa, hxa, hxa0⟩ := strTruthy_destruct _ ha1
  obtain ⟨xp, hxp, hxp0⟩ := strTruthy_destruct _ hpc1
  obtain ⟨xc, hxc, hxc0⟩ := strTruthy_destruct _ hc1
  obtain ⟨xar, hxar, hxar0⟩ := natTruthy_destruct _ har1
  obtain ⟨xpr, hxpr, hxpr0⟩ := natTruthy_destruct _ hpr1
  obtain ⟨yu, hyu, hyu0⟩ := strTruthy_destruct _ hu2
  obtain ⟨ys, hys, hys0⟩ := strTruthy_destruct _ hs2
  obtain ⟨yt, hyt, hyt0⟩ := strTruthy_destruct _ ht2
  obtain ⟨ya, hya, hya0⟩ := strTruthy_destruct _ ha2
  obtain ⟨yp, hyp, hyp0⟩ := strTruthy_destruct _ hpc2
  obtain ⟨yc, hyc, hyc0⟩ := strTruthy_destruct _ hc2
  obtain ⟨yar, hyar, hyar0⟩ := natTruthy_destruct _ har2
  obtain ⟨ypr, hypr, hypr0⟩ := natTruthy_destruct _ hpr2
  have hcore1 : identCore l1 = [xu, xs, xt, xa, xp, xc,
      "area:" ++ natToStr xar, "price:" ++ natToStr xpr] := by
    unfold identCore
    rw [hxu, hxs, hxt, hxa, hxp, hxc, hxar, hxpr]
    simp [strField, numField, hxu0, hxs0, hxt0, hxa0, hxp0, hxc0, hxar0, hxpr0]
  have hcore2 : identCore l2 = [yu, ys, yt, ya, yp, yc,
      "area:" ++ natToStr yar, "price:" ++ natToStr ypr] := by
    unfold identCore
    rw [hyu, hys, hyt, hya, hyp, hyc, hyar, hypr]
    simp [strField, numField, hyu0, hys0, hyt0, hya0, hyp0, hyc0, hyar0, hypr0]
  have hane1 : "area:" ++ natToStr xar ≠ "" := append_ne_empty_left _ _ (by decide)
  have hpne1 : "price:" ++ natToStr xpr ≠ "" := append_ne_empty_left _ _ (by decide)
  have hane2 : "area:" ++ natToStr yar ≠ "" := append_ne_empty_left _ _ (by decide)
  have hpne2 : "price:" ++ natToStr ypr ≠ "" := append_ne_empty_left _ _ (by decide)
  have hhi1 : hashInput l1 u1 = pyJoin "|" [xu, xs, xt, xa, xp, xc,
      "area:" ++ natToStr xar, "price:" ++ natToStr xpr] := by
    unfold hashInput identifiers
    rw [hcore1]
    rw [if_neg (by simp)]
    congr 1
    simp [List.filter_cons, hxu0, hxs0, hxt0, hxa0, hxp0, hxc0, hane1, hpne1]
  have hhi2 : hashInput l2 u2 = pyJoin "|" [yu, ys, yt, ya, yp, yc,
      "area:" ++ natToStr yar, "price:" ++ natToStr ypr] := by
    unfold hashInput identifiers
    rw [hcore2]
    rw [if_neg (by simp)]
    congr 1
    simp [List.filter_cons, hyu0, hys0, hyt0, hya0, hyp0, hyc0, hane2, hpne2]
  rw [hhi1, hhi2] at heq
  have hdata := congrArg String.data heq
  rw [pyJoin_pipe_data, pyJoin_pipe_data] at hdata
  unfold pipeFreeFields at hf1 hf2
  simp only [Bool.and_eq_true] at hf1 hf2
  obtain ⟨⟨⟨⟨⟨pf1u, pf1s⟩, pf1t⟩, pf1a⟩, pf1p⟩, pf1c⟩ := hf1
  obtain ⟨⟨⟨⟨⟨pf2u, pf2s⟩, pf2t⟩, pf2a⟩, pf2p⟩, pf2c⟩ := hf2
  have pfree1 : ∀ x ∈ ([xu, xs, xt, xa, xp, xc, "area:" ++ natToStr xar,
      "price:" ++ natToStr xpr].map String.data), ('|' : Char) ∉ x := by
    intro x hx
    simp only [List.map_cons, List.map_nil, List.mem_cons, List.not_mem_nil,
      or_false] at hx
    rcases hx with rfl | rfl | rfl | rfl | rfl | rfl | rfl | rfl
    · exact pipeFreeOpt_destruct xu (by rw [← hxu]; exact pf1u)
    · exact pipeFreeOpt_destruct xs (by rw [← hxs]; exact pf1s)
    · exact pipeFreeOpt_destruct xt (by rw [← hxt]; exact pf1t)
    · exact pipeFreeOpt_destruct xa (by rw [← hxa]; exact pf1a)
    · exact pipeFreeOpt_destruct xp (by rw [← hxp]; exact pf1p)
    · exact pipeFreeOpt_destruct xc (by rw [← hxc]; exact pf1c)
    · exact tagged_num_pipe_free _ _ (by decide)
    · exact tagged_num_pipe_free _ _ (by decide)
  have pfree2 : ∀ x ∈ ([yu, ys, yt, ya, yp, yc, "area:" ++ natToStr yar,
      "price:" ++ natToStr ypr].map String.data), ('|' : Char) ∉ x := by
    intro x hx
    simp only [List.map_cons, List.map_nil, List.mem_cons, List.not_mem_nil,
      or_false] at hx
    rcases hx with rfl | rfl | rfl | rfl | rfl | rfl | rfl | rfl
    · exact pipeFreeOpt_destruct yu (by rw [← hyu]; exact pf2u)
    · exact pipeFreeOpt_destruct ys (by rw [← hys]; exact pf2s)
    · exact pipeFreeOpt_destruct yt (by rw [← hyt]; exact pf2t)
    · exact pipeFreeOpt_destruct ya (by rw [← hya]; exact pf2a)
    · exact pipeFreeOpt_destruct yp (by rw [← hyp]; exact pf2p)
    · exact pipeFreeOpt_destruct yc (by rw [← hyc]; exact pf2c)
    · exact tagged_num_pipe_free _ _ (by decide)
    · exact tagged_num_pipe_free _ _ (by decide)
  have hlists := joinPipe_inj _ _ (by simp) pfree1 pfree2 hdata
  simp only [List.map_cons, List.map_nil, List.cons.injEq, and_true] at hlists
  obtain ⟨e1, e2, e3, e4, e5, e6, e7, e8⟩ := hlists
  refine ⟨?_, ?_, ?_, ?_, ?_, ?_, ?_, ?_⟩
  · rw [hxu, hyu]; exact congrArg some (String.ext e1)
  · rw [hxs, hys]; exact congrArg some (String.ext e2)
  · rw [hxt, hyt]; exact congrArg some (String.ext e3)
  · rw [hxa, hya]; exact congrArg some (String.ext e4)
  · rw [hxp, hyp]; exact congrArg some (String.ext e5)
  · rw [hxc, hyc]; exact congrArg some (String.ext e6)
  · rw [hxar, hyar]
    have h7 : ("area:").data ++ (natToStr xar).data =
        ("area:").data ++ (natToStr yar).data := by
      rw [← String.data_append, ← String.data_append]
      exact e7
    exact congrArg some (natToStr_data_inj _ _ (List.append_cancel_left h7))
  · rw [hxpr, hypr]
    have h8 : ("price:").data ++ (natToStr xpr).data =
        ("price:").data ++ (natToStr ypr).data := by
      rw [← String.data_append, ← String.data_append]
      exact e8
    exact congrArg some (natToStr_data_inj _ _ (List.append_cancel_left h8))

/-- Claim C9 (amended) witness: a fully-present, pipe-free listing; the theorem
applied to it and itself. -/
theorem hash_input_injective_on_present_pipe_free_witness :
    allIdentPresent ⟨some "https://x/1", some "id", some "t", some "Addr 1",
      some "2311", some "Leiden", some 72, some 1500, none⟩ = true ∧
    pipeFreeFields ⟨some "https://x/1", some "id", some "t", some "Addr 1",
      some "2311", some "Leiden", some 72, some 1500, none⟩ = true ∧
    hashInput ⟨some "https://x/1", some "id", some "t", some "Addr 1",
      some "2311", some "Leiden", some 72, some 1500, none⟩ "u1" =
      hashInput ⟨some "https://x/1", some "id", some "t", some "Addr 1",
        some "2311", some "Leiden", some 72, some 1500, none⟩ "u2" ∧
    sameIdentFields
      ⟨some "https://x/1", some "id", some "t", some "Addr 1",
        some "2311", some "Leiden", some 72, some 1500, none⟩
      ⟨some "https://x/1", some "id", some "t", some "Addr 1",
        some "2311", some "Leiden", some 72, some 1500, none⟩ :=
  ⟨by decide, by decide, rfl,
   hash_input_injective_on_present_pipe_free _ _ "u1" "u2" (by decide) (by decide)
     (by decide) (by decide) rfl⟩

end Letify